import Mathlib

/-!
Shallow embedding of the livechat repository's core protocol logic.

The repository contains several near-identical server variants:
  * src/server.js             — MongoDB-backed variant with an in-memory fallback
  * src/unnamed/part_000      — in-memory variant with rank-based PM visibility
  * src/unnamed/part_001      — in-memory variant adding mute and video support

Definitions suffixed `_mem` embed the shared in-memory logic of part_000 and
part_001 (identical where both exist); `_p0` / `_p1` mark code that exists only
in (or differs between) part_000 and part_001; `_db` embeds the MongoDB path of
src/server.js. Timestamps are modelled as natural-number milliseconds; JS Maps
are modelled as insertion-ordered association lists, matching JS Map iteration
order.
-/

namespace LiveChat

/-- The five ranks of the rank system (src/unnamed/part_000 lines 436-442,
part_001 lines 449-455, server.js PERMISSIONS table). -/
inductive Rank
  | owner
  | admin
  | moderator
  | vip
  | member
deriving DecidableEq, Repr

open Rank

/-- RANK_LEVELS / getRankLevel from part_000 lines 436-446 and part_001
lines 449-458: owner 1, admin 2, moderator 3, vip 4, member 5 (lower =
more privileged). -/
def getRankLevel : Rank → Nat
  | owner => 1
  | admin => 2
  | moderator => 3
  | vip => 4
  | member => 5

/-- The fields of a PERMISSIONS table entry used by the moderation handlers
(part_001 lines 490-560; part_000 agrees on the shared fields). -/
structure Perms where
  canBan : Bool
  canUnban : Bool
  canMute : Bool
  canDeleteRoom : Bool
  canClear : Bool
  canGrant : List Rank
  canUseEffects : Bool
  canUpload : Bool
deriving DecidableEq, Repr

/-- The PERMISSIONS lookup table of part_001 lines 490-560 (part_000's table
has the same values on these fields; `PERMISSIONS[userRank] || PERMISSIONS.member`
is total here because `Rank` enumerates exactly the valid ranks). -/
def PERMISSIONS : Rank → Perms
  | owner =>
      { canBan := true, canUnban := true, canMute := true, canDeleteRoom := true,
        canClear := true, canGrant := [admin, moderator, vip, member],
        canUseEffects := true, canUpload := true }
  | admin =>
      { canBan := true, canUnban := true, canMute := true, canDeleteRoom := true,
        canClear := true, canGrant := [moderator, vip, member],
        canUseEffects := true, canUpload := true }
  | moderator =>
      { canBan := true, canUnban := false, canMute := true, canDeleteRoom := false,
        canClear := true, canGrant := [], canUseEffects := false, canUpload := true }
  | vip =>
      { canBan := false, canUnban := false, canMute := false, canDeleteRoom := false,
        canClear := false, canGrant := [], canUseEffects := false, canUpload := true }
  | member =>
      { canBan := false, canUnban := false, canMute := false, canDeleteRoom := false,
        canClear := false, canGrant := [], canUseEffects := false, canUpload := false }

/-- Process-wide configuration: the moderation shared secret
(`ADMIN_PASSWORD`, server.js line 27 default). -/
def ADMIN_PASSWORD : String := "A@sh1shlivechat"

/-- Process-wide configuration: the distinguished owner account name
(`OWNER_USERNAME`, server.js line 29). -/
def OWNER_USERNAME : String := "Pi_Kid71"

section MapModel

variable {α : Type}

/-- JS `Map.get`: the value at the first (unique) occurrence of a key in an
insertion-ordered association list. -/
def mapGet (m : List (String × α)) (k : String) : Option α :=
  match m with
  | [] => none
  | (k2, v) :: rest => if k2 = k then some v else mapGet rest k

/-- JS `Map.has`. -/
def mapHas (m : List (String × α)) (k : String) : Bool :=
  (mapGet m k).isSome

/-- JS `Map.set`: replace the value in place if the key exists (preserving
iteration order), otherwise append at the end. -/
def mapSet (m : List (String × α)) (k : String) (v : α) : List (String × α) :=
  match m with
  | [] => [(k, v)]
  | (k2, v2) :: rest =>
      if k2 = k then (k2, v) :: rest else (k2, v2) :: mapSet rest k v

/-- JS `Map.delete`. -/
def mapDel (m : List (String × α)) (k : String) : List (String × α) :=
  match m with
  | [] => []
  | (k2, v2) :: rest =>
      if k2 = k then rest else (k2, v2) :: mapDel rest k

end MapModel

/-- A room-scoped chat message (`messageData` objects of the chat handlers);
`rank` is the display-rank string, which is `"system"` for system messages. -/
structure ChatMsg where
  username : String
  message : String
  rank : String
  timestamp : Nat
deriving DecidableEq, Repr

/-- Display string for a rank, as stored in message payloads. -/
def rankStr : Rank → String
  | owner => "owner"
  | admin => "admin"
  | moderator => "moderator"
  | vip => "vip"
  | member => "member"

/-- A stored private message (`messageData` of the private_message handlers,
part_000 lines 911-921). -/
structure PMsg where
  from_ : String
  fromRank : Rank
  toU : String
  toRank : Rank
  message : String
  timestamp : Nat
deriving DecidableEq, Repr

/-- A UserDirectory entry (`memoryStore.users` values). -/
structure UserRec where
  username : String
  password : String
  rank : Rank
  theme : String
deriving DecidableEq, Repr

/-- A RoomStore entry (`memoryStore.rooms` values). -/
structure RoomRec where
  name : String
  password : String
  isDef : Bool
  messages : List ChatMsg
  theme : String
deriving DecidableEq, Repr

/-- A SessionRegistry entry (`memoryStore.sessions` values): `{username, rank,
roomName}`. -/
structure SessRec where
  username : String
  rank : Rank
  roomName : Option String
deriving DecidableEq, Repr

/-- An active ban record (`memoryStore.bans` inner map values,
part_001 lines 1443-1447). -/
structure BanRec where
  expiresAt : Nat
  bannedBy : String
deriving DecidableEq, Repr

/-- An active mute record (`memoryStore.mutes` values, part_001 line 1556). -/
structure MuteRec where
  roomName : String
  expiresAt : Nat
  mutedBy : String
deriving DecidableEq, Repr

/-- The shared in-memory store of part_000/part_001 (`memoryStore`): users,
rooms, sessions (socket id keyed), bans (room name → (username → ban)),
mutes (keyed by the concatenated string `username ++ "-" ++ roomName`,
part_001 line 462), and the bounded private-message history. -/
structure MemState where
  users : List (String × UserRec)
  rooms : List (String × RoomRec)
  sessions : List (String × SessRec)
  bans : List (String × List (String × BanRec))
  mutes : List (String × MuteRec)
  privateMessages : List PMsg
deriving DecidableEq, Repr

/-- The per-connection closure state of a socket handler
(`currentUser`, `currentRoom`, `userRank` locals of the connection callback,
part_000 lines 531-534). -/
structure Conn where
  currentUser : Option String
  currentRoom : Option String
  userRank : Rank
deriving DecidableEq, Repr

/-- Where an outbound event is sent: a single socket, the calling socket, all
sockets in a room, all sockets in a room except the caller, or everyone. -/
inductive Target
  | socket (sid : String)
  | caller
  | room (name : String)
  | othersInRoom (name : String)
  | all
deriving DecidableEq, Repr

/-- Outbound server events relevant to the claims. -/
inductive Ev
  | authSuccess (username : String) (rank : Rank)
  | authError (msg : String)
  | errorEv (msg : String)
  | joinedRoom (roomName : String)
  | roomHistory (msgs : List ChatMsg)
  | userJoined (username : String) (members : Nat)
  | userLeft (username : String) (members : Nat)
  | chatMsg (m : ChatMsg)
  | systemMessage (msg : String)
  | roomCreated (name : String)
  | roomDeleted (name : String)
  | roomDeletedByOwner (name : String)
  | userBanned (u : String)
  | userUnbanned (u : String)
  | userMuted (u : String)
  | userUnmuted (u : String)
  | forceLeave (roomName reason : String)
  | privateMsg (pm : PMsg) (adminView : Bool)
  | privateMsgSent (toU msg : String)
  | privateHistory (msgs : List PMsg)
  | rankChanged (newRank : Rank)
  | commandSuccess (msg : String)
  | messagesCleared
  | themeApplied (theme scope : String)
  | loggedOut
deriving DecidableEq, Repr

/-- Result of running one socket handler: the updated closure state, the
updated store, and the emitted events. -/
structure HRes where
  conn : Conn
  st : MemState
  out : List (Target × Ev)
deriving DecidableEq, Repr

/-- The bounded history append used throughout the sources:
`arr.push(m); if (arr.length > 100) arr.shift();` (part_000 lines 880-882,
part_001, and the memory paths of server.js). -/
def pushBounded (h : List ChatMsg) (m : ChatMsg) : List ChatMsg :=
  let h2 := h ++ [m]
  if 100 < h2.length then h2.drop 1 else h2

/-- Same push-then-shift bound for the private-message history
(part_000 lines 923-926). -/
def pushBoundedPM (h : List PMsg) (m : PMsg) : List PMsg :=
  let h2 := h ++ [m]
  if 100 < h2.length then h2.drop 1 else h2

/-- `isUserMuted` of part_001 lines 461-473: key is the concatenated string
`username + "-" + roomName`; an expired entry is purged on access (lazy
expiry), so the check returns the verdict together with the possibly-updated
store. -/
def isUserMuted (st : MemState) (username roomName : String) (now : Nat) :
    Bool × MemState :=
  let key := username ++ "-" ++ roomName
  match mapGet st.mutes key with
  | some m =>
      if now < m.expiresAt then (true, st)
      else (false, { st with mutes := mapDel st.mutes key })
  | none => (false, st)

/-- `memoryStore.users.get(u)?.rank || 'member'` — directory rank of a user,
defaulting to member when absent (part_001 line 1420). -/
def dirRank (st : MemState) (u : String) : Rank :=
  match mapGet st.users u with
  | some ur => ur.rank
  | none => Rank.member

/-- Live member count of a room: sessions whose `roomName` equals the room
(part_000 lines 825-826 and elsewhere). -/
def memberCount (st : MemState) (roomName : String) : Nat :=
  (st.sessions.filter (fun p => p.2.roomName = some roomName)).length

/-- First session (in registry iteration order) belonging to a username
(the recipient-lookup loop of the private_message handlers,
part_000 lines 929-935). -/
def findSessionByUser (st : MemState) (u : String) : Option (String × SessRec) :=
  st.sessions.find? (fun p => p.2.username = u)

/-- First session of a username that is currently in a given room (the
kick-lookup loop of the ban_user handlers, part_000 lines 1207-1213). -/
def findSessionInRoom (st : MemState) (u room : String) :
    Option (String × SessRec) :=
  st.sessions.find? (fun p => p.2.username = u ∧ p.2.roomName = some room)

/-- The login handler of part_000 lines 536-595 and part_001 lines 576-631
(identical): owner/admin master-password special cases, then directory lookup,
then the auto-create branch for unknown usernames. Absent payload fields are
modelled as the empty string (JS falsiness). -/
def login_mem (conn : Conn) (st : MemState) (sid username password : String) :
    HRes :=
  if username = "" ∨ password = "" then
    ⟨conn, st, [(Target.caller, Ev.authError "Username and password required")]⟩
  else if username = OWNER_USERNAME ∧ password = ADMIN_PASSWORD then
    ⟨{ conn with currentUser := some username, userRank := Rank.owner },
     { st with sessions := mapSet st.sessions sid ⟨username, Rank.owner, none⟩ },
     [(Target.caller, Ev.authSuccess username Rank.owner)]⟩
  else if username = "admin" ∧ password = ADMIN_PASSWORD then
    ⟨{ conn with currentUser := some username, userRank := Rank.admin },
     { st with sessions := mapSet st.sessions sid ⟨username, Rank.admin, none⟩ },
     [(Target.caller, Ev.authSuccess username Rank.admin)]⟩
  else
    match mapGet st.users username with
    | some u =>
        if u.password = password then
          ⟨{ conn with currentUser := some username, userRank := u.rank },
           { st with sessions := mapSet st.sessions sid ⟨username, u.rank, none⟩ },
           [(Target.caller, Ev.authSuccess username u.rank)]⟩
        else
          ⟨conn, st, [(Target.caller, Ev.authError "Invalid credentials")]⟩
    | none =>
        ⟨{ conn with currentUser := some username, userRank := Rank.member },
         { st with
             users := mapSet st.users username ⟨username, password, Rank.member, "default"⟩,
             sessions := mapSet st.sessions sid ⟨username, Rank.member, none⟩ },
         [(Target.caller, Ev.authSuccess username Rank.member)]⟩

/-- The register handler of part_000 lines 597-639 / part_001 lines 633-675:
length validation, reserved names, duplicate rejection, member-rank creation. -/
def register_mem (conn : Conn) (st : MemState) (sid username password : String) :
    HRes :=
  if username = "" ∨ password = "" then
    ⟨conn, st, [(Target.caller, Ev.authError "Username and password required")]⟩
  else if username.length < 3 then
    ⟨conn, st, [(Target.caller, Ev.authError "Username must be at least 3 characters")]⟩
  else if password.length < 4 then
    ⟨conn, st, [(Target.caller, Ev.authError "Password must be at least 4 characters")]⟩
  else if username = OWNER_USERNAME ∨ username = "admin" then
    ⟨conn, st, [(Target.caller, Ev.authError "Username reserved")]⟩
  else if mapHas st.users username then
    ⟨conn, st, [(Target.caller, Ev.authError "Username already exists")]⟩
  else
    ⟨{ conn with currentUser := some username, userRank := Rank.member },
     { st with
         users := mapSet st.users username ⟨username, password, Rank.member, "default"⟩,
         sessions := mapSet st.sessions sid ⟨username, Rank.member, none⟩ },
     [(Target.caller, Ev.authSuccess username Rank.member)]⟩

/-- The logout handler of part_000 lines 641-652: removes the session
registry entry when authenticated and resets the closure user/room. -/
def logout_mem (conn : Conn) (st : MemState) (sid : String) : HRes :=
  let st2 :=
    if conn.currentUser.isSome then { st with sessions := mapDel st.sessions sid }
    else st
  ⟨{ conn with currentUser := none, currentRoom := none }, st2,
   [(Target.caller, Ev.loggedOut)]⟩

/-- The create_room handler of part_000 lines 711-760 / part_001 lines
829-879: rejects empty/duplicate names, stores the room, implicitly joins the
creator and broadcasts creation globally. -/
def createRoom_mem (conn : Conn) (st : MemState)
    (sid roomName password theme : String) : HRes :=
  match conn.currentUser with
  | none => ⟨conn, st, [(Target.caller, Ev.errorEv "Not authenticated")]⟩
  | some cu =>
      if roomName.trim = "" then
        ⟨conn, st, [(Target.caller, Ev.errorEv "Room name cannot be empty")]⟩
      else if mapHas st.rooms roomName then
        ⟨conn, st, [(Target.caller, Ev.errorEv "Room already exists")]⟩
      else
        let st1 := { st with
          rooms := mapSet st.rooms roomName ⟨roomName, password, false, [], theme⟩ }
        let st2 := match mapGet st1.sessions sid with
          | some s =>
              { st1 with sessions := mapSet st1.sessions sid { s with roomName := some roomName } }
          | none => st1
        ⟨{ conn with currentRoom := some roomName }, st2,
         [(Target.caller, Ev.joinedRoom roomName),
          (Target.room roomName, Ev.userJoined cu 1),
          (Target.all, Ev.roomCreated roomName)]⟩

/-- The join_room handler of part_000 lines 763-812 / part_001 lines 881-931:
room lookup, password check, session room switch, history delivery to the
caller, join notification. (Note: unlike the server.js database path, the
in-memory join performs no ban check.) -/
def joinRoom_mem (conn : Conn) (st : MemState) (sid roomName password : String) :
    HRes :=
  match conn.currentUser with
  | none => ⟨conn, st, [(Target.caller, Ev.errorEv "Not authenticated")]⟩
  | some cu =>
      match mapGet st.rooms roomName with
      | none => ⟨conn, st, [(Target.caller, Ev.errorEv "Room does not exist")]⟩
      | some room =>
          if room.password ≠ "" ∧ room.password ≠ password then
            ⟨conn, st, [(Target.caller, Ev.errorEv "Incorrect password")]⟩
          else
            let st1 :=
              if conn.currentRoom.isSome then
                match mapGet st.sessions sid with
                | some s =>
                    { st with sessions := mapSet st.sessions sid { s with roomName := none } }
                | none => st
              else st
            let st2 := match mapGet st1.sessions sid with
              | some s =>
                  { st1 with sessions := mapSet st1.sessions sid { s with roomName := some roomName } }
              | none => st1
            ⟨{ conn with currentRoom := some roomName }, st2,
             [(Target.caller, Ev.joinedRoom roomName),
              (Target.caller, Ev.roomHistory room.messages),
              (Target.room roomName, Ev.userJoined cu (memberCount st2 roomName))]⟩

/-- The leave_room handler of part_000 lines 815-864 / part_001 lines 933-981:
clears the session's room, notifies, appends a system message to the room
history, and deletes the room when the member count reached zero and the room
is not `"Main"`. -/
def leaveRoom_mem (conn : Conn) (st : MemState) (sid : String) (now : Nat) :
    HRes :=
  match conn.currentUser, conn.currentRoom with
  | some cu, some roomName =>
      let st1 := match mapGet st.sessions sid with
        | some s =>
            { st with sessions := mapSet st.sessions sid { s with roomName := none } }
        | none => st
      let members := memberCount st1 roomName
      let sysMsg : ChatMsg := ⟨"System", cu ++ " left the room", "system", now⟩
      let st2 := match mapGet st1.rooms roomName with
        | some room =>
            { st1 with
                rooms := mapSet st1.rooms roomName
                  { room with messages := pushBounded room.messages sysMsg } }
        | none => st1
      if members = 0 ∧ roomName ≠ "Main" then
        ⟨{ conn with currentRoom := none },
         { st2 with rooms := mapDel st2.rooms roomName },
         [(Target.room roomName, Ev.userLeft cu members),
          (Target.room roomName, Ev.chatMsg sysMsg),
          (Target.all, Ev.roomDeleted roomName)]⟩
      else
        ⟨{ conn with currentRoom := none }, st2,
         [(Target.room roomName, Ev.userLeft cu members),
          (Target.room roomName, Ev.chatMsg sysMsg)]⟩
  | _, _ => ⟨conn, st, []⟩

/-- The chat message handler of part_000 lines 867-892 (no mute system in
part_000): appends to the room's bounded history (lines 878-883) and
broadcasts to the other room members. -/
def chatMessage_p0 (conn : Conn) (st : MemState) (message : String) (now : Nat) :
    HRes :=
  match conn.currentUser, conn.currentRoom with
  | some cu, some cr =>
      let m : ChatMsg := ⟨cu, message, rankStr conn.userRank, now⟩
      let st2 := match mapGet st.rooms cr with
        | some room =>
            { st with
                rooms := mapSet st.rooms cr
                  { room with messages := pushBounded room.messages m } }
        | none => st
      ⟨conn, st2, [(Target.othersInRoom cr, Ev.chatMsg m)]⟩
  | _, _ => ⟨conn, st, []⟩

/-- The chat message handler of part_001 lines 985-1016: as part_000 but
rejecting the message with a system notice when the sender is muted in the
room. -/
def chatMessage_p1 (conn : Conn) (st : MemState) (message : String) (now : Nat) :
    HRes :=
  match conn.currentUser, conn.currentRoom with
  | some cu, some cr =>
      let mr := isUserMuted st cu cr now
      if mr.1 then
        ⟨conn, mr.2,
         [(Target.caller, Ev.systemMessage "You are muted and cannot send messages")]⟩
      else chatMessage_p0 conn mr.2 message now
  | _, _ => ⟨conn, st, []⟩

/-- The share_file handler of part_001 lines 1122-1152: builds a file chat
message (file metadata fields elided here), appends it to the bounded room
history and broadcasts to all room members including the sender. -/
def shareFile_p1 (conn : Conn) (st : MemState) (fileName : String) (now : Nat) :
    HRes :=
  match conn.currentUser, conn.currentRoom with
  | some cu, some cr =>
      let m : ChatMsg := ⟨cu, "Shared file: " ++ fileName, rankStr conn.userRank, now⟩
      let st2 := match mapGet st.rooms cr with
        | some room =>
            { st with
                rooms := mapSet st.rooms cr
                  { room with messages := pushBounded room.messages m } }
        | none => st
      ⟨conn, st2, [(Target.room cr, Ev.chatMsg m)]⟩
  | _, _ => ⟨conn, st, []⟩

/-- The private_message handler of part_000 lines 894-984 / part_001 lines
1017-1097 (identical): stores the message in the bounded private history,
delivers the direct copy to the first session of the recipient in registry
iteration order, sends a tagged `adminView` observer copy to every other
session whose rank level is strictly below the sender's level, repeats the
owner copies via the redundant owner loop, and confirms to the sender. -/
def privateMessage_mem (conn : Conn) (st : MemState)
    (recipient message : String) (now : Nat) : HRes :=
  match conn.currentUser with
  | none => ⟨conn, st, []⟩
  | some cu =>
      if recipient = "" ∨ message = "" then ⟨conn, st, []⟩
      else
        let recipientRank := dirRank st recipient
        let pm : PMsg := ⟨cu, conn.userRank, recipient, recipientRank, message, now⟩
        let st1 := { st with privateMessages := pushBoundedPM st.privateMessages pm }
        let directOut := match findSessionByUser st recipient with
          | some p => [(Target.socket p.1, Ev.privateMsg pm false)]
          | none => []
        let senderLevel := getRankLevel conn.userRank
        let cascadeOut := (st.sessions.filter (fun p =>
            p.2.username ≠ cu ∧ p.2.username ≠ recipient ∧
              getRankLevel p.2.rank < senderLevel)).map
          (fun p => (Target.socket p.1, Ev.privateMsg pm true))
        let ownerOut :=
          if conn.userRank ≠ Rank.owner then
            (st.sessions.filter (fun p =>
                p.2.rank = Rank.owner ∧ p.2.username ≠ cu ∧ p.2.username ≠ recipient)).map
              (fun p => (Target.socket p.1, Ev.privateMsg pm true))
          else []
        ⟨conn, st1,
         directOut ++ cascadeOut ++ ownerOut ++
           [(Target.caller, Ev.privateMsgSent recipient message)]⟩

/-- The get_private_history handler of part_000 lines 986-1007 / part_001
lines 1100-1120: filters the stored history to messages the caller sent or
received, plus messages whose sender has a strictly higher rank level than the
caller's level. -/
def getPrivateHistory_mem (conn : Conn) (st : MemState) : HRes :=
  match conn.currentUser with
  | none => ⟨conn, st, []⟩
  | some cu =>
      let userLevel := getRankLevel conn.userRank
      let history := st.privateMessages.filter (fun msg =>
        msg.from_ = cu ∨ msg.toU = cu ∨ userLevel < getRankLevel msg.fromRank)
      ⟨conn, st, [(Target.caller, Ev.privateHistory history)]⟩

/-- Digits of a decimal numeral read left to right, as `parseInt` does on a
digit-only string. -/
def digitsToNat (cs : List Char) : Nat :=
  cs.foldl (fun acc c => acc * 10 + (c.toNat - 48)) 0

/-- Model of matching a duration string against the regex
`^(\d+)([mhd])$` (the character class `[hmd]` of the inline ban parsers
matches the same set): one or more digits followed by a unit character. -/
def durMatch (s : String) : Option (Nat × Char) :=
  match s.data.getLast? with
  | none => none
  | some u =>
      let digits := s.data.dropLast
      if (u = 'm' ∨ u = 'h' ∨ u = 'd') ∧ digits ≠ [] ∧ digits.all Char.isDigit then
        some (digitsToNat digits, u)
      else none

/-- `parseDuration` of part_001 lines 475-488: milliseconds for a matched
amount and unit (m/h/d), 10 minutes when the string does not parse. -/
def parseDuration (s : String) : Nat :=
  match durMatch s with
  | none => 10 * 60 * 1000
  | some (amount, u) =>
      if u = 'm' then amount * 60 * 1000
      else if u = 'h' then amount * 60 * 60 * 1000
      else if u = 'd' then amount * 24 * 60 * 60 * 1000
      else 10 * 60 * 1000

/-- The inline duration parsing of the ban_user handlers (server.js lines
1406-1415, part_000 lines 1178-1186, part_001 lines 1432-1440):
`durationMs` starts at the 10-minute default and is only overwritten for the
`h` and `d` units — a matched `m` unit keeps the default. -/
def banDurationMs (duration : String) : Nat :=
  match durMatch duration with
  | none => 10 * 60 * 1000
  | some (v, u) =>
      if u = 'h' then v * 60 * 60 * 1000
      else if u = 'd' then v * 24 * 60 * 60 * 1000
      else 10 * 60 * 1000

/-- The ban_user handler of part_001 lines 1403-1477: issuer-mute gate,
`canBan` permission, issuer-vs-target rank gate (lines 1420-1426), moderator
password gate, inline duration parsing, ban record write, notifications, and
the eager `force_leave` kick of the target's session in the room. -/
def banUser_p1 (conn : Conn) (st : MemState)
    (bannedUser duration password : String) (now : Nat) : HRes :=
  match conn.currentUser, conn.currentRoom with
  | some cu, some cr =>
      let mr := isUserMuted st cu cr now
      let st1 := mr.2
      if mr.1 then
        ⟨conn, st1, [(Target.caller, Ev.errorEv "You are muted and cannot use commands")]⟩
      else
          if !(PERMISSIONS conn.userRank).canBan then
            ⟨conn, st1, [(Target.caller, Ev.errorEv "You do not have permission")]⟩
          else if bannedUser = "" then ⟨conn, st1, []⟩
          else
            let bannedLevel := getRankLevel (dirRank st1 bannedUser)
            let bannerLevel := getRankLevel conn.userRank
            if bannedLevel ≤ bannerLevel ∧ conn.userRank ≠ Rank.owner then
              ⟨conn, st1,
               [(Target.caller, Ev.errorEv "Cannot ban users of equal or higher rank")]⟩
            else if conn.userRank = Rank.moderator ∧ password ≠ ADMIN_PASSWORD then
              ⟨conn, st1, [(Target.caller, Ev.errorEv "Incorrect password")]⟩
            else
              let expiresAt := now + banDurationMs duration
              let roomBans := (mapGet st1.bans cr).getD []
              let st2 := { st1 with
                bans := mapSet st1.bans cr (mapSet roomBans bannedUser ⟨expiresAt, cu⟩) }
              let sysMsg : ChatMsg :=
                ⟨"System", bannedUser ++ " banned by " ++ cu ++ " for " ++ duration,
                 "system", now⟩
              let kickOut := match findSessionInRoom st2 bannedUser cr with
                | some p => [(Target.socket p.1, Ev.forceLeave cr "banned")]
                | none => []
              ⟨conn, st2,
               [(Target.room cr, Ev.userBanned bannedUser),
                (Target.room cr, Ev.chatMsg sysMsg)] ++ kickOut⟩
  | _, _ => ⟨conn, st, []⟩

/-- The unban_user handler of part_001 lines 1479-1521: issuer-mute gate,
`canUnban` permission, password gate for non-admin/owner, ban record delete. -/
def unbanUser_p1 (conn : Conn) (st : MemState)
    (unbannedUser password : String) (now : Nat) : HRes :=
  match conn.currentUser, conn.currentRoom with
  | some cu, some cr =>
      let mr := isUserMuted st cu cr now
      let st1 := mr.2
      if mr.1 then
        ⟨conn, st1, [(Target.caller, Ev.errorEv "You are muted and cannot use commands")]⟩
      else
          if !(PERMISSIONS conn.userRank).canUnban then
            ⟨conn, st1, [(Target.caller, Ev.errorEv "You do not have permission")]⟩
          else if unbannedUser = "" then ⟨conn, st1, []⟩
          else if conn.userRank ≠ Rank.admin ∧ conn.userRank ≠ Rank.owner ∧
              password ≠ ADMIN_PASSWORD then
            ⟨conn, st1, [(Target.caller, Ev.errorEv "Incorrect password")]⟩
          else
            let st2 := match mapGet st1.bans cr with
              | some roomBans =>
                  { st1 with bans := mapSet st1.bans cr (mapDel roomBans unbannedUser) }
              | none => st1
            let sysMsg : ChatMsg :=
              ⟨"System", unbannedUser ++ " unbanned by " ++ cu, "system", now⟩
            ⟨conn, st2,
             [(Target.room cr, Ev.userUnbanned unbannedUser),
              (Target.room cr, Ev.chatMsg sysMsg)]⟩
  | _, _ => ⟨conn, st, []⟩

/-- The mute_user handler of part_001 lines 1523-1570: issuer-mute gate,
`canMute` permission, issuer-vs-target rank gate, `parseDuration`, mute
record write keyed by `mutedUser-roomName`. -/
def muteUser_p1 (conn : Conn) (st : MemState)
    (mutedUser duration : String) (now : Nat) : HRes :=
  match conn.currentUser, conn.currentRoom with
  | some cu, some cr =>
      let mr := isUserMuted st cu cr now
      let st1 := mr.2
      if mr.1 then
        ⟨conn, st1, [(Target.caller, Ev.errorEv "You are muted and cannot use commands")]⟩
      else
          if !(PERMISSIONS conn.userRank).canMute then
            ⟨conn, st1, [(Target.caller, Ev.errorEv "You do not have permission")]⟩
          else if mutedUser = "" then ⟨conn, st1, []⟩
          else
            let mutedLevel := getRankLevel (dirRank st1 mutedUser)
            let muterLevel := getRankLevel conn.userRank
            if mutedLevel ≤ muterLevel ∧ conn.userRank ≠ Rank.owner then
              ⟨conn, st1,
               [(Target.caller, Ev.errorEv "Cannot mute users of equal or higher rank")]⟩
            else
              let expiresAt := now + parseDuration duration
              let muteKey := mutedUser ++ "-" ++ cr
              let st2 := { st1 with
                mutes := mapSet st1.mutes muteKey ⟨cr, expiresAt, cu⟩ }
              let sysMsg : ChatMsg :=
                ⟨"System", mutedUser ++ " muted by " ++ cu ++ " for " ++ duration,
                 "system", now⟩
              ⟨conn, st2,
               [(Target.room cr, Ev.userMuted mutedUser),
                (Target.room cr, Ev.chatMsg sysMsg)]⟩
  | _, _ => ⟨conn, st, []⟩

/-- The unmute_user handler of part_001 lines 1572-1616: issuer-mute gate,
`canMute` permission, issuer-vs-target rank gate, mute record delete. -/
def unmuteUser_p1 (conn : Conn) (st : MemState) (unmutedUser : String)
    (now : Nat) : HRes :=
  match conn.currentUser, conn.currentRoom with
  | some cu, some cr =>
      let mr := isUserMuted st cu cr now
      let st1 := mr.2
      if mr.1 then
        ⟨conn, st1, [(Target.caller, Ev.errorEv "You are muted and cannot use commands")]⟩
      else
          if !(PERMISSIONS conn.userRank).canMute then
            ⟨conn, st1, [(Target.caller, Ev.errorEv "You do not have permission")]⟩
          else if unmutedUser = "" then ⟨conn, st1, []⟩
          else
            let unmutedLevel := getRankLevel (dirRank st1 unmutedUser)
            let unmuterLevel := getRankLevel conn.userRank
            if unmutedLevel ≤ unmuterLevel ∧ conn.userRank ≠ Rank.owner then
              ⟨conn, st1,
               [(Target.caller, Ev.errorEv "Cannot unmute users of equal or higher rank")]⟩
            else
              let muteKey := unmutedUser ++ "-" ++ cr
              let st2 := { st1 with mutes := mapDel st1.mutes muteKey }
              let sysMsg : ChatMsg :=
                ⟨"System", unmutedUser ++ " unmuted by " ++ cu, "system", now⟩
              ⟨conn, st2,
               [(Target.room cr, Ev.userUnmuted unmutedUser),
                (Target.room cr, Ev.chatMsg sysMsg)]⟩
  | _, _ => ⟨conn, st, []⟩

/-- The clear_messages handler of part_001 lines 1357-1400: after the gates,
the room history is truncated and replaced by the single clear announcement. -/
def clearMessages_p1 (conn : Conn) (st : MemState) (password : String)
    (now : Nat) : HRes :=
  match conn.currentUser, conn.currentRoom with
  | some cu, some cr =>
      let mr := isUserMuted st cu cr now
      let st1 := mr.2
      if mr.1 then
        ⟨conn, st1, [(Target.caller, Ev.errorEv "You are muted and cannot use commands")]⟩
      else
          if !(PERMISSIONS conn.userRank).canClear then
            ⟨conn, st1, [(Target.caller, Ev.errorEv "You do not have permission")]⟩
          else if conn.userRank ≠ Rank.admin ∧ conn.userRank ≠ Rank.owner ∧
              password ≠ ADMIN_PASSWORD then
            ⟨conn, st1, [(Target.caller, Ev.errorEv "Incorrect password")]⟩
          else
            let sysMsg : ChatMsg :=
              ⟨"System", "Messages cleared by " ++ cu, "system", now⟩
            let st2 := match mapGet st1.rooms cr with
              | some room =>
                  { st1 with rooms := mapSet st1.rooms cr { room with messages := [sysMsg] } }
              | none => st1
            ⟨conn, st2,
             [(Target.room cr, Ev.messagesCleared), (Target.room cr, Ev.chatMsg sysMsg)]⟩
  | _, _ => ⟨conn, st, []⟩

/-- The delete_room handler of part_000 lines 1265-1301 / part_001 lines
1618-1654 (identical): `canDeleteRoom` permission, password gate for
non-admin/owner, the hard `roomName === 'Main'` refusal, then deletion (when
the room exists) and the two removal broadcasts. -/
def deleteRoom_mem (conn : Conn) (st : MemState) (roomName password : String) :
    HRes :=
  match conn.currentUser with
  | none => ⟨conn, st, []⟩
  | some _ =>
      if !(PERMISSIONS conn.userRank).canDeleteRoom then
        ⟨conn, st, [(Target.caller, Ev.errorEv "You do not have permission")]⟩
      else if roomName = "" then ⟨conn, st, []⟩
      else if conn.userRank ≠ Rank.admin ∧ conn.userRank ≠ Rank.owner ∧
          password ≠ ADMIN_PASSWORD then
        ⟨conn, st, [(Target.caller, Ev.errorEv "Incorrect password")]⟩
      else if roomName = "Main" then
        ⟨conn, st, [(Target.caller, Ev.errorEv "Cannot delete Main room")]⟩
      else
        let st2 :=
          if mapHas st.rooms roomName then { st with rooms := mapDel st.rooms roomName }
          else st
        ⟨conn, st2,
         [(Target.room roomName, Ev.roomDeletedByOwner roomName),
          (Target.all, Ev.roomDeleted roomName)]⟩

/-- The grant_rank handler of part_000 lines 1333-1373 (body shared with
part_001 lines 1696-1734): `canGrant` gates, password gate for non-owner,
directory rank update, and live update of the FIRST registry session of the
target (the loop breaks after one match) plus a rank-change notification.
The issuing connection's own closure is returned unchanged, and no other
connection's closure is touched — the handler has no access to them. -/
def grantRank_p0 (conn : Conn) (st : MemState) (targetUser : String)
    (newRank : Rank) (password : String) : HRes :=
  match conn.currentUser with
  | none => ⟨conn, st, []⟩
  | some _ =>
      let perms := PERMISSIONS conn.userRank
      if perms.canGrant.length = 0 then
        ⟨conn, st, [(Target.caller, Ev.errorEv "You do not have permission")]⟩
      else if targetUser = "" then ⟨conn, st, []⟩
      else if !(perms.canGrant.contains newRank) then
        ⟨conn, st, [(Target.caller, Ev.errorEv ("Cannot grant " ++ rankStr newRank ++ " rank"))]⟩
      else if conn.userRank ≠ Rank.owner ∧ password ≠ ADMIN_PASSWORD then
        ⟨conn, st, [(Target.caller, Ev.errorEv "Incorrect password")]⟩
      else
        let successOut :=
          [(Target.caller, Ev.commandSuccess (targetUser ++ " is now " ++ rankStr newRank))]
        match mapGet st.users targetUser with
        | some user =>
            let st1 := { st with users := mapSet st.users targetUser { user with rank := newRank } }
            match findSessionByUser st1 targetUser with
            | some p =>
                let st2 := { st1 with
                  sessions := mapSet st1.sessions p.1 { p.2 with rank := newRank } }
                ⟨conn, st2, (Target.socket p.1, Ev.rankChanged newRank) :: successOut⟩
            | none => ⟨conn, st1, successOut⟩
        | none => ⟨conn, st, successOut⟩

/-- The grant_rank handler of part_001 lines 1690-1734: part_000's handler
behind an additional issuer-mute gate when the issuer is in a room. -/
def grantRank_p1 (conn : Conn) (st : MemState) (targetUser : String)
    (newRank : Rank) (password : String) (now : Nat) : HRes :=
  match conn.currentUser, conn.currentRoom with
  | some cu, some cr =>
      let mr := isUserMuted st cu cr now
      if mr.1 then
        ⟨conn, mr.2, [(Target.caller, Ev.errorEv "You are muted and cannot use commands")]⟩
      else grantRank_p0 conn mr.2 targetUser newRank password
  | some _, none => grantRank_p0 conn st targetUser newRank password
  | none, _ => ⟨conn, st, []⟩

/-- The change_theme handler of part_001 lines 1736-1773: mute gate for the
room scope, theme allow-list, personal or room theme update (room scope
requires `canUpload`, aliased `isVip` in the source). -/
def changeTheme_p1 (conn : Conn) (st : MemState) (theme scope : String)
    (now : Nat) : HRes :=
  match conn.currentUser with
  | none => ⟨conn, st, []⟩
  | some cu =>
      let isVipFlag := (PERMISSIONS conn.userRank).canUpload
      let muteRes :=
        match conn.currentRoom with
        | some cr => if scope = "room" then isUserMuted st cu cr now else (false, st)
        | none => (false, st)
      let st1 := muteRes.2
      if muteRes.1 then
        ⟨conn, st1, [(Target.caller, Ev.errorEv "You are muted and cannot use commands")]⟩
      else
          let validThemes := ["default", "dark", "light", "neon", "midnight",
            "sunset", "forest", "ocean", "cyberpunk", "vintage"]
          if !(validThemes.contains theme) then
            ⟨conn, st1, [(Target.caller, Ev.errorEv "Invalid theme")]⟩
          else if scope = "personal" then
            let st2 := match mapGet st1.users cu with
              | some user =>
                  { st1 with users := mapSet st1.users cu { user with theme := theme } }
              | none => st1
            ⟨conn, st2, [(Target.caller, Ev.themeApplied theme "personal")]⟩
          else
            match conn.currentRoom with
            | some cr =>
                if scope = "room" then
                  match mapGet st1.rooms cr with
                  | some room =>
                      if isVipFlag then
                        ⟨conn,
                         { st1 with rooms := mapSet st1.rooms cr { room with theme := theme } },
                         [(Target.room cr, Ev.themeApplied theme "room")]⟩
                      else ⟨conn, st1, []⟩
                  | none => ⟨conn, st1, []⟩
                else ⟨conn, st1, []⟩
            | none => ⟨conn, st1, []⟩

/-- The disconnect handler of part_000 lines 1408-1434 / part_001 lines
1776-1800 (and the memory path of server.js lines 1702-1732): notifies the
room if the user was in one and removes the session registry entry. It never
touches the room store — in particular it performs no empty-room deletion. -/
def disconnect_mem (conn : Conn) (st : MemState) (sid : String) (now : Nat) :
    HRes :=
  let out := match conn.currentUser, conn.currentRoom with
    | some cu, some cr =>
        [(Target.room cr, Ev.userLeft cu 0),
         (Target.room cr, Ev.chatMsg ⟨"System", cu ++ " disconnected", "system", now⟩)]
    | _, _ => []
  ⟨conn, { st with sessions := mapDel st.sessions sid }, out⟩

/-- Whole-server state of the in-memory variant: the shared store plus the
per-connection closure of every socket (`conns` keyed by socket id). -/
structure Sys where
  mem : MemState
  conns : List (String × Conn)
deriving DecidableEq, Repr

/-- Closure state of a socket: fresh connections start as
`currentUser = null, currentRoom = null, userRank = 'member'`
(part_000 lines 531-534). -/
def getConn (sys : Sys) (sid : String) : Conn :=
  (mapGet sys.conns sid).getD ⟨none, none, Rank.member⟩

/-- The inbound commands of the part_001 protocol that can touch the shared
store (the voice/video signaling handlers and read-only queries mutate
nothing and are omitted). -/
inductive Op
  | login (username password : String)
  | register (username password : String)
  | logout
  | createRoom (roomName password theme : String)
  | joinRoom (roomName password : String)
  | leaveRoom
  | chatMessage (message : String)
  | shareFile (fileName : String)
  | privateMessage (recipient message : String)
  | getPrivateHistory
  | clearMessages (password : String)
  | banUser (bannedUser duration password : String)
  | unbanUser (unbannedUser password : String)
  | muteUser (mutedUser duration : String)
  | unmuteUser (unmutedUser : String)
  | deleteRoom (roomName password : String)
  | grantRank (targetUser : String) (newRank : Rank) (password : String)
  | changeTheme (theme scope : String)
  | disconnect
deriving DecidableEq, Repr

/-- Dispatch of one inbound command to its part_001 handler. -/
def runOp (conn : Conn) (st : MemState) (sid : String) (op : Op) (now : Nat) :
    HRes :=
  match op with
  | .login u p => login_mem conn st sid u p
  | .register u p => register_mem conn st sid u p
  | .logout => logout_mem conn st sid
  | .createRoom r p t => createRoom_mem conn st sid r p t
  | .joinRoom r p => joinRoom_mem conn st sid r p
  | .leaveRoom => leaveRoom_mem conn st sid now
  | .chatMessage m => chatMessage_p1 conn st m now
  | .shareFile f => shareFile_p1 conn st f now
  | .privateMessage r m => privateMessage_mem conn st r m now
  | .getPrivateHistory => getPrivateHistory_mem conn st
  | .clearMessages p => clearMessages_p1 conn st p now
  | .banUser b d p => banUser_p1 conn st b d p now
  | .unbanUser u p => unbanUser_p1 conn st u p now
  | .muteUser m d => muteUser_p1 conn st m d now
  | .unmuteUser u => unmuteUser_p1 conn st u now
  | .deleteRoom r p => deleteRoom_mem conn st r p
  | .grantRank t r p => grantRank_p1 conn st t r p now
  | .changeTheme t s => changeTheme_p1 conn st t s now
  | .disconnect => disconnect_mem conn st sid now

/-- One step of the whole server: run a command for the connection `sid` and
store back its updated closure. -/
def step (sys : Sys) (sid : String) (op : Op) (now : Nat) : Sys :=
  let r := runOp (getConn sys sid) sys.mem sid op now
  ⟨r.st, mapSet sys.conns sid r.conn⟩

/-- The `"Main"` room is present in the room store. -/
def mainPresent (sys : Sys) : Prop :=
  mapHas sys.mem.rooms "Main"

instance (sys : Sys) : Decidable (mainPresent sys) := by
  unfold mainPresent
  infer_instance

/-- A user document of the server.js MongoDB variant (UserSchema). -/
structure DbUser where
  username : String
  password : String
  rank : Rank
  theme : String
deriving DecidableEq, Repr

/-- A room document of the server.js MongoDB variant (RoomSchema). -/
structure DbRoom where
  name : String
  password : String
  isDef : Bool
  theme : String
deriving DecidableEq, Repr

/-- A ban document of the server.js MongoDB variant (BanSchema). -/
structure BanDoc where
  roomName : String
  username : String
  bannedBy : String
  expiresAt : Nat
  isActive : Bool
deriving DecidableEq, Repr

/-- A session document of the server.js MongoDB variant (SessionSchema). -/
structure SessDoc where
  socketId : String
  username : String
  userRank : Rank
  roomName : Option String
deriving DecidableEq, Repr

/-- A message document of the server.js MongoDB variant (MessageSchema). -/
structure MsgDoc where
  roomName : String
  username : String
  message : String
  senderRank : String
  timestamp : Nat
  isSystem : Bool
deriving DecidableEq, Repr

/-- The database-backed store of server.js. Collections are modelled as
lists in insertion order; `findOne` is first-match in that order, and message
timestamps are nondecreasing in insertion order (`Message.create` stamps the
current time). -/
structure DbState where
  users : List DbUser
  rooms : List DbRoom
  bans : List BanDoc
  sessions : List SessDoc
  messages : List MsgDoc
deriving DecidableEq, Repr

/-- Result of one server.js database-path handler. -/
structure DbRes where
  conn : Conn
  db : DbState
  out : List (Target × Ev)
deriving DecidableEq, Repr

/-- The login handler of server.js lines 564-613 (database branch): directory
lookup, `Username not found` when absent, `Incorrect password` on mismatch;
on success a session document is created. No user document is ever created
on this path. -/
def login_db (conn : Conn) (db : DbState) (sid username password : String) :
    DbRes :=
  if username = "" ∨ password = "" then
    ⟨conn, db, [(Target.caller, Ev.authError "Username and password required")]⟩
  else
    match db.users.find? (fun u => u.username = username) with
    | none => ⟨conn, db, [(Target.caller, Ev.authError "Username not found")]⟩
    | some u =>
        if u.password ≠ password then
          ⟨conn, db, [(Target.caller, Ev.authError "Incorrect password")]⟩
        else
          ⟨{ conn with currentUser := some username, userRank := u.rank },
           { db with sessions := db.sessions ++ [⟨sid, username, u.rank, none⟩] },
           [(Target.caller, Ev.authSuccess username u.rank)]⟩

/-- `Ban.findOne({roomName, username, isActive: true, expiresAt: {$gt: now}})`
of the server.js join_room handler (lines 967-979). -/
def activeBanExists (db : DbState) (roomName username : String) (now : Nat) :
    Bool :=
  db.bans.any (fun b =>
    b.roomName = roomName ∧ b.username = username ∧ b.isActive ∧ now < b.expiresAt)

/-- View of a stored message document as the client-facing history entry
(the map in server.js lines 1008-1016). -/
def msgDocToChat (m : MsgDoc) : ChatMsg :=
  ⟨m.username, m.message, m.senderRank, m.timestamp⟩

/-- The history query of the server.js join_room handler (lines 1001-1005):
`Message.find({roomName}).sort({timestamp: -1}).limit(50).sort({timestamp: 1})`.
The chained calls build a single query and Mongoose merges same-key sorts,
the later `{timestamp: 1}` overwriting the earlier one, so the query that
runs is an ascending sort with limit 50: the 50 oldest messages of the room,
ascending (messages being stored in timestamp order). -/
def dbRoomHistory (db : DbState) (roomName : String) : List MsgDoc :=
  (db.messages.filter (fun m => m.roomName = roomName)).take 50

/-- The join_room handler of server.js lines 948-1030 (database branch):
room lookup, password check, active-ban check, session-room update, capped
history delivery and join notification. -/
def joinRoom_db (conn : Conn) (db : DbState) (sid roomName password : String)
    (now : Nat) : DbRes :=
  match conn.currentUser with
  | none => ⟨conn, db, [(Target.caller, Ev.errorEv "Not authenticated")]⟩
  | some cu =>
      match db.rooms.find? (fun r => r.name = roomName) with
      | none => ⟨conn, db, [(Target.caller, Ev.errorEv "Room does not exist")]⟩
      | some room =>
          if room.password ≠ "" ∧ room.password ≠ password then
            ⟨conn, db, [(Target.caller, Ev.errorEv "Incorrect password")]⟩
          else if activeBanExists db roomName cu now then
            ⟨conn, db, [(Target.caller, Ev.errorEv "You are banned from this room")]⟩
          else
            let db2 := { db with sessions := db.sessions.map (fun s =>
              if s.socketId = sid then { s with roomName := some roomName } else s) }
            let members := (db2.sessions.filter (fun s => s.roomName = some roomName)).length
            ⟨{ conn with currentRoom := some roomName }, db2,
             [(Target.caller, Ev.joinedRoom roomName),
              (Target.caller,
                Ev.roomHistory ((dbRoomHistory db roomName).map msgDocToChat)),
              (Target.room roomName, Ev.userJoined cu members)]⟩

/-- The ban_user handler of server.js lines 1388-1468 (database branch):
`canBan` permission and the moderator password gate — note the absence of any
issuer-vs-target rank comparison — then deactivation of prior active bans,
creation of the new ban document, notifications, and the `force_leave` kick
of the target's session in the room (lines 1446-1462). -/
def banUser_db (conn : Conn) (db : DbState)
    (bannedUser duration password : String) (now : Nat) : DbRes :=
  match conn.currentUser, conn.currentRoom with
  | some cu, some cr =>
      if !(PERMISSIONS conn.userRank).canBan then
        ⟨conn, db, [(Target.caller, Ev.errorEv "You do not have permission")]⟩
      else if bannedUser = "" then ⟨conn, db, []⟩
      else if conn.userRank = Rank.moderator ∧ password ≠ ADMIN_PASSWORD then
        ⟨conn, db, [(Target.caller, Ev.errorEv "Incorrect password")]⟩
      else
        let expiresAt := now + banDurationMs duration
        let deactivated := db.bans.map (fun b =>
          if b.roomName = cr ∧ b.username = bannedUser ∧ b.isActive then
            { b with isActive := false }
          else b)
        let db2 := { db with bans := deactivated ++ [⟨cr, bannedUser, cu, expiresAt, true⟩] }
        let sysMsg : ChatMsg :=
          ⟨"System", bannedUser ++ " banned by " ++ cu ++ " for " ++ duration,
           "system", now⟩
        let kickOut := match db2.sessions.find? (fun s =>
            s.username = bannedUser ∧ s.roomName = some cr) with
          | some s => [(Target.socket s.socketId, Ev.forceLeave cr "banned")]
          | none => []
        ⟨conn, db2,
         [(Target.room cr, Ev.userBanned bannedUser),
          (Target.room cr, Ev.chatMsg sysMsg)] ++ kickOut⟩
  | _, _ => ⟨conn, db, []⟩

/-- The disconnect handler of server.js lines 1702-1732: notifies the room if
the user was in one and deletes the session document. It does not touch the
room collection — no empty-room deletion and no `room_deleted` broadcast
happen on this path. -/
def disconnect_db (conn : Conn) (db : DbState) (sid : String) (now : Nat) :
    DbRes :=
  let out := match conn.currentUser, conn.currentRoom with
    | some cu, some cr =>
        [(Target.room cr, Ev.userLeft cu 0),
         (Target.room cr, Ev.chatMsg ⟨"System", cu ++ " disconnected", "system", now⟩)]
    | _, _ => []
  ⟨conn, { db with sessions := db.sessions.filter (fun s => s.socketId ≠ sid) }, out⟩

/-- The record of a written ban in the in-memory store: the inner ban map of
the room holds the given record for the target. -/
def banRecorded (st : MemState) (room target : String) (b : BanRec) : Prop :=
  mapGet ((mapGet st.bans room).getD []) target = some b

instance (st : MemState) (room target : String) (b : BanRec) :
    Decidable (banRecorded st room target b) := by
  unfold banRecorded
  infer_instance

/-- The record of a written mute in the in-memory store: the mute map holds
the given record under the concatenated key. -/
def muteRecorded (st : MemState) (room target : String) (m : MuteRec) : Prop :=
  mapGet st.mutes (target ++ "-" ++ room) = some m

instance (st : MemState) (room target : String) (m : MuteRec) :
    Decidable (muteRecorded st room target m) := by
  unfold muteRecorded
  infer_instance

/-- The rank-pair gate of part_001's ban_user/mute_user handlers together
with their other preconditions: issuer not muted in the room, issuer's rank
holding the sanction permission, the claimed rank condition, and the
moderator password rule (bans only; mutes have no password gate). -/
def sanctionAllowed (conn : Conn) (st : MemState) (issuer room target : String)
    (now : Nat) (needPerm : Perms → Bool) (needPassword : Bool)
    (password : String) : Prop :=
  (isUserMuted st issuer room now).1 = false ∧
  needPerm (PERMISSIONS conn.userRank) = true ∧
  (getRankLevel conn.userRank < getRankLevel (dirRank st target) ∨
    conn.userRank = Rank.owner) ∧
  (needPassword → conn.userRank = Rank.moderator → password = ADMIN_PASSWORD)

instance (conn : Conn) (st : MemState) (issuer room target : String)
    (now : Nat) (needPerm : Perms → Bool) (needPassword : Bool)
    (password : String) :
    Decidable (sanctionAllowed conn st issuer room target now needPerm
      needPassword password) := by
  unfold sanctionAllowed
  infer_instance

/-- C1 counterexample store: a vip issuer (alice) and a member target (bob),
both online in Main, no sanctions. -/
def c1st : MemState :=
  { users := [("alice", ⟨"alice", "pw111", Rank.vip, "default"⟩),
              ("bob", ⟨"bob", "pw222", Rank.member, "default"⟩)],
    rooms := [("Main", ⟨"Main", "", true, [], "default"⟩)],
    sessions := [("s1", ⟨"alice", Rank.vip, some "Main"⟩),
                 ("s2", ⟨"bob", Rank.member, some "Main"⟩)],
    bans := [], mutes := [], privateMessages := [] }

/-- C1 counterexample issuing connection: alice, rank vip, in Main. -/
def c1conn : Conn := ⟨some "alice", some "Main", Rank.vip⟩

/-- C1 witness issuing connection: a moderator in Main. -/
def c1wconn : Conn := ⟨some "mody", some "Main", Rank.moderator⟩

/-- C2 scenario store: Lounge has password `"sekret"`, carol holds an active
ban for Lounge, and dave is present in Lounge. -/
def c2db : DbState :=
  { users := [],
    rooms := [⟨"Main", "", true, "default"⟩, ⟨"Lounge", "sekret", false, "default"⟩],
    bans := [⟨"Lounge", "carol", "adm", 5000, true⟩],
    sessions := [⟨"s5", "dave", Rank.member, some "Lounge"⟩],
    messages := [] }

/-- C2 joining connection: banned carol, authenticated, not in a room. -/
def c2conn : Conn := ⟨some "carol", none, Rank.member⟩

/-- C2 issuing connection: an admin in Lounge. -/
def c2issuer : Conn := ⟨some "adm", some "Lounge", Rank.admin⟩

/-- C3 witness system: the seeded store with only the default room. -/
def c3sys : Sys :=
  { mem := { users := [], rooms := [("Main", ⟨"Main", "", true, [], "default"⟩)],
             sessions := [], bans := [], mutes := [], privateMessages := [] },
    conns := [] }

/-- C4 failing-input store for server.js: a non-default Lounge whose only
member is erin (session s1). -/
def c4db : DbState :=
  { users := [],
    rooms := [⟨"Main", "", true, "default"⟩, ⟨"Lounge", "", false, "default"⟩],
    bans := [], sessions := [⟨"s1", "erin", Rank.member, some "Lounge"⟩],
    messages := [] }

/-- C4 disconnecting connection: erin in Lounge. -/
def c4conn : Conn := ⟨some "erin", some "Lounge", Rank.member⟩

/-- C4 contrast store (in-memory variant): the same single-occupant Lounge. -/
def c4mst : MemState :=
  { users := [],
    rooms := [("Main", ⟨"Main", "", true, [], "default"⟩),
              ("Lounge", ⟨"Lounge", "", false, [], "default"⟩)],
    sessions := [("s1", ⟨"erin", Rank.member, some "Lounge"⟩)],
    bans := [], mutes := [], privateMessages := [] }

/-- C5 scenario store: moderator mona online along with recipient rex
(member), an admin ada and a member mel. -/
def c5st : MemState :=
  { users := [("mona", ⟨"mona", "pw", Rank.moderator, "default"⟩),
              ("rex", ⟨"rex", "pw", Rank.member, "default"⟩),
              ("ada", ⟨"ada", "pw", Rank.admin, "default"⟩),
              ("mel", ⟨"mel", "pw", Rank.member, "default"⟩)],
    rooms := [("Main", ⟨"Main", "", true, [], "default"⟩)],
    sessions := [("s1", ⟨"mona", Rank.moderator, some "Main"⟩),
                 ("s2", ⟨"rex", Rank.member, some "Main"⟩),
                 ("s3", ⟨"ada", Rank.admin, some "Main"⟩),
                 ("s4", ⟨"mel", Rank.member, some "Main"⟩)],
    bans := [], mutes := [], privateMessages := [] }

/-- C5 sending connection: moderator mona. -/
def c5conn : Conn := ⟨some "mona", some "Main", Rank.moderator⟩

/-- C5 viewing connection for the history part: admin ada. -/
def c5vconn : Conn := ⟨some "ada", some "Main", Rank.admin⟩

/-- C5 stored private message from mona (moderator) to rex. -/
def c5pm : PMsg := ⟨"mona", Rank.moderator, "rex", Rank.member, "hi", 3⟩

/-- C5 store holding one private message for the history part. -/
def c5st2 : MemState := { c5st with privateMessages := [c5pm] }

/-- C6 counterexample: 150 messages stored for Lounge in the server.js
database, in timestamp order. -/
def c6msgs : List MsgDoc :=
  (List.range 150).map (fun i => ⟨"Lounge", "u", "m", "member", i, false⟩)

/-- C6 counterexample database store. -/
def c6db : DbState :=
  { users := [],
    rooms := [⟨"Main", "", true, "default"⟩, ⟨"Lounge", "", false, "default"⟩],
    bans := [], sessions := [], messages := c6msgs }

/-- C6 joining connection. -/
def c6conn : Conn := ⟨some "carol", none, Rank.member⟩

/-- C6 witness: 150 chat messages in arrival order. -/
def c6cms : List ChatMsg :=
  (List.range 150).map (fun i => ⟨"u", "m", "member", i⟩)

/-- C6 witness store for the in-memory join-delivery part. -/
def c6wst : MemState :=
  { users := [],
    rooms := [("Main", ⟨"Main", "", true, c6cms.drop 50, "default"⟩)],
    sessions := [], bans := [], mutes := [], privateMessages := [] }

/-- C8 counterexample store: only the seeded owner and admin accounts exist. -/
def c8st : MemState :=
  { users := [(OWNER_USERNAME, ⟨OWNER_USERNAME, ADMIN_PASSWORD, Rank.owner, "dark"⟩),
              ("admin", ⟨"admin", ADMIN_PASSWORD, Rank.admin, "default"⟩)],
    rooms := [("Main", ⟨"Main", "", true, [], "default"⟩)],
    sessions := [], bans := [], mutes := [], privateMessages := [] }

/-- C8 witness database store: one registered user frank. -/
def c8db : DbState :=
  { users := [⟨"frank", "goodpw", Rank.member, "default"⟩],
    rooms := [⟨"Main", "", true, "default"⟩],
    bans := [], sessions := [], messages := [] }

/-- C9 scenario system: owner alice (connection s1, not in a room) and member
bob (connection s2, in Main). -/
def c9sys : Sys :=
  { mem := { users := [("alice", ⟨"alice", "pw", Rank.owner, "dark"⟩),
                       ("bob", ⟨"bob", "pw", Rank.member, "default"⟩)],
             rooms := [("Main", ⟨"Main", "", true, [], "default"⟩)],
             sessions := [("s1", ⟨"alice", Rank.owner, none⟩),
                          ("s2", ⟨"bob", Rank.member, some "Main"⟩)],
             bans := [], mutes := [], privateMessages := [] },
    conns := [("s1", ⟨some "alice", none, Rank.owner⟩),
              ("s2", ⟨some "bob", some "Main", Rank.member⟩)] }

/-- C9: the system after alice grants bob the moderator rank. -/
def c9sys2 : Sys := step c9sys "s1" (Op.grantRank "bob" Rank.moderator "") 0

/-- C10 scenario store: recipient rex is connected twice (sessions s2 and
s5); the sender mona and rex's two sessions are the only connections. -/
def c10st : MemState :=
  { users := [("mona", ⟨"mona", "pw", Rank.moderator, "default"⟩),
              ("rex", ⟨"rex", "pw", Rank.member, "default"⟩)],
    rooms := [("Main", ⟨"Main", "", true, [], "default"⟩)],
    sessions := [("s1", ⟨"mona", Rank.moderator, some "Main"⟩),
                 ("s2", ⟨"rex", Rank.member, some "Main"⟩),
                 ("s5", ⟨"rex", Rank.member, none⟩)],
    bans := [], mutes := [], privateMessages := [] }

/-- C10 sending connection: mona. -/
def c10conn : Conn := ⟨some "mona", some "Main", Rank.moderator⟩

section Lemmas

variable {α : Type}

theorem mapGet_mapSet_ne (m : List (String × α)) (k k2 : String) (v : α)
    (h : k2 ≠ k) : mapGet (mapSet m k v) k2 = mapGet m k2 := by
  induction m with
  | nil => simp [mapSet, mapGet, Ne.symm h]
  | cons hd tl ih =>
      obtain ⟨k3, v3⟩ := hd
      by_cases hk : k3 = k
      · subst hk
        simp [mapSet, mapGet, Ne.symm h]
      · simp [mapSet, hk, mapGet]
        by_cases hk2 : k3 = k2
        · simp [hk2]
        · simp [hk2, ih]

theorem mapGet_mapSet_self (m : List (String × α)) (k : String) (v : α) :
    mapGet (mapSet m k v) k = some v := by
  induction m with
  | nil => simp [mapSet, mapGet]
  | cons hd tl ih =>
      obtain ⟨k3, v3⟩ := hd
      by_cases hk : k3 = k
      · simp [mapSet, hk, mapGet]
      · simp [mapSet, hk, mapGet, ih]

theorem mapHas_mapSet (m : List (String × α)) (k k2 : String) (v : α)
    (h : mapHas m k2) : mapHas (mapSet m k v) k2 := by
  by_cases hk : k2 = k
  · subst hk
    simp [mapHas, mapGet_mapSet_self]
  · simpa [mapHas, mapGet_mapSet_ne m k k2 v hk] using h

theorem mapHas_mapDel_ne (m : List (String × α)) (k k2 : String)
    (h : k2 ≠ k) (h2 : mapHas m k2) : mapHas (mapDel m k) k2 := by
  induction m with
  | nil => simp [mapHas, mapGet] at h2
  | cons hd tl ih =>
      obtain ⟨k3, v3⟩ := hd
      by_cases hk : k3 = k
      · subst hk
        simp only [mapDel, if_pos rfl]
        simp only [mapHas, mapGet, if_neg (Ne.symm h)] at h2
        exact h2
      · by_cases hk2 : k3 = k2
        · subst hk2
          simp [mapDel, hk, mapHas, mapGet]
        · simp [mapDel, hk, mapHas, mapGet, hk2] at h2 ⊢
          exact ih h2


theorem isUserMuted_users (st : MemState) (u r : String) (now : Nat) :
    (isUserMuted st u r now).2.users = st.users := by
  unfold isUserMuted
  dsimp only
  repeat' split
  all_goals rfl

theorem isUserMuted_rooms (st : MemState) (u r : String) (now : Nat) :
    (isUserMuted st u r now).2.rooms = st.rooms := by
  unfold isUserMuted
  dsimp only
  repeat' split
  all_goals rfl

theorem isUserMuted_sessions (st : MemState) (u r : String) (now : Nat) :
    (isUserMuted st u r now).2.sessions = st.sessions := by
  unfold isUserMuted
  dsimp only
  repeat' split
  all_goals rfl

theorem isUserMuted_bans (st : MemState) (u r : String) (now : Nat) :
    (isUserMuted st u r now).2.bans = st.bans := by
  unfold isUserMuted
  dsimp only
  repeat' split
  all_goals rfl

theorem dirRank_purge (st : MemState) (u r t : String) (now : Nat) :
    dirRank (isUserMuted st u r now).2 t = dirRank st t := by
  unfold dirRank
  rw [isUserMuted_users]

/-- Success/rejection characterization of part_001's ban_user handler: the
sanction is written exactly when the gate `sanctionAllowed` holds, and a
rejection leaves the ban store unchanged and emits an error to the caller. -/
theorem banUser_p1_char (conn : Conn) (st : MemState)
    (issuer room target duration password : String) (now : Nat)
    (hcu : conn.currentUser = some issuer) (hcr : conn.currentRoom = some room)
    (htgt : target ≠ "") :
    (sanctionAllowed conn st issuer room target now Perms.canBan true password →
      banRecorded (banUser_p1 conn st target duration password now).st room target
        ⟨now + banDurationMs duration, issuer⟩) ∧
    (¬ sanctionAllowed conn st issuer room target now Perms.canBan true password →
      (banUser_p1 conn st target duration password now).st.bans = st.bans ∧
      (banUser_p1 conn st target duration password now).out.length = 1 ∧
      ∀ te ∈ (banUser_p1 conn st target duration password now).out,
        te.1 = Target.caller ∧ ∃ msg, te.2 = Ev.errorEv msg) := by
  unfold banUser_p1
  rw [hcu, hcr]
  dsimp only
  by_cases hm : (isUserMuted st issuer room now).1 = true
  · rw [if_pos hm]
    constructor
    · intro hall
      exact absurd hall.1 (by simp [hm])
    · intro _
      refine ⟨isUserMuted_bans st issuer room now, rfl, ?_⟩
      intro te hte
      simp only [List.mem_singleton] at hte
      subst hte
      exact ⟨rfl, "You are muted and cannot use commands", rfl⟩
  · rw [if_neg hm]
    rw [Bool.not_eq_true] at hm
    by_cases hperm : (PERMISSIONS conn.userRank).canBan = true
    · simp only [hperm, Bool.not_true, Bool.false_eq_true, if_false, if_neg htgt,
        dirRank_purge]
      by_cases hgate : getRankLevel (dirRank st target) ≤ getRankLevel conn.userRank ∧
          conn.userRank ≠ Rank.owner
      · rw [if_pos hgate]
        constructor
        · intro hall
          rcases hall.2.2.1 with hlt | hown
          · exact absurd hgate.1 (Nat.not_le_of_lt hlt)
          · exact absurd hown hgate.2
        · intro _
          refine ⟨isUserMuted_bans st issuer room now, rfl, ?_⟩
          intro te hte
          simp only [List.mem_singleton] at hte
          subst hte
          exact ⟨rfl, "Cannot ban users of equal or higher rank", rfl⟩
      · rw [if_neg hgate]
        by_cases hpw : conn.userRank = Rank.moderator ∧ password ≠ ADMIN_PASSWORD
        · rw [if_pos hpw]
          constructor
          · intro hall
            exact absurd (hall.2.2.2 rfl hpw.1) hpw.2
          · intro _
            refine ⟨isUserMuted_bans st issuer room now, rfl, ?_⟩
            intro te hte
            simp only [List.mem_singleton] at hte
            subst hte
            exact ⟨rfl, "Incorrect password", rfl⟩
        · rw [if_neg hpw]
          constructor
          · intro _
            unfold banRecorded
            dsimp only
            rw [isUserMuted_bans]
            rw [mapGet_mapSet_self, Option.getD_some, mapGet_mapSet_self]
          · intro hnall
            exfalso
            apply hnall
            refine ⟨hm, hperm, ?_, ?_⟩
            · rcases Nat.lt_or_ge (getRankLevel conn.userRank)
                (getRankLevel (dirRank st target)) with hlt | hge
              · exact Or.inl hlt
              · by_contra hcon
                exact hgate ⟨hge, fun hown => hcon (Or.inr hown)⟩
            · intro _ hmod
              by_contra hne
              exact hpw ⟨hmod, hne⟩
    · simp only [hperm]
      simp only [Bool.not_false, if_true]
      constructor
      · intro hall
        exact absurd hall.2.1 hperm
      · intro _
        refine ⟨isUserMuted_bans st issuer room now, rfl, ?_⟩
        intro te hte
        simp only [List.mem_singleton] at hte
        subst hte
        exact ⟨rfl, "You do not have permission", rfl⟩

/-- In an association list with pairwise-distinct keys, two members with the
same key carry the same value. -/
theorem mapKeyUnique {β : Type} (l : List (String × β)) (s : String) (a b : β)
    (hnd : (l.map Prod.fst).Nodup) (ha : (s, a) ∈ l) (hb : (s, b) ∈ l) :
    a = b := by
  induction l with
  | nil => cases ha
  | cons hd tl ih =>
      obtain ⟨k, v⟩ := hd
      rw [List.map_cons, List.nodup_cons] at hnd
      rcases List.mem_cons.mp ha with ha1 | ha1 <;>
        rcases List.mem_cons.mp hb with hb1 | hb1
      · rw [Prod.mk.injEq] at ha1 hb1
        rw [ha1.2, hb1.2]
      · exfalso
        apply hnd.1
        rw [Prod.mk.injEq] at ha1
        rw [← ha1.1]
        exact List.mem_map.mpr ⟨(s, b), hb1, rfl⟩
      · exfalso
        apply hnd.1
        rw [Prod.mk.injEq] at hb1
        rw [← hb1.1]
        exact List.mem_map.mpr ⟨(s, a), ha1, rfl⟩
      · exact ih hnd.2 ha1 hb1

/-- Any rank other than owner has a strictly larger level than owner. -/
theorem ownerLevel_lt (r : Rank) (h : r ≠ Rank.owner) :
    getRankLevel Rank.owner < getRankLevel r := by
  cases r
  · exact absurd rfl h
  all_goals decide

/-- A session receives the tagged observer copy of a private message exactly
when it belongs neither to the sender nor to the recipient and its rank level
is strictly below the sender's level — the cascade loop of the
private_message handler; the redundant owner loop only duplicates copies to
owner sessions, which already satisfy the condition whenever the sender is
not the owner. -/
theorem observer_mem_iff (conn : Conn) (st : MemState)
    (recipient message : String) (now : Nat) (cu sid : String) (sess : SessRec)
    (hcu : conn.currentUser = some cu)
    (hrec : recipient ≠ "") (hmsg : message ≠ "")
    (hnd : (st.sessions.map Prod.fst).Nodup) (hs : (sid, sess) ∈ st.sessions) :
    ((Target.socket sid,
        Ev.privateMsg ⟨cu, conn.userRank, recipient, dirRank st recipient, message, now⟩
          true) ∈ (privateMessage_mem conn st recipient message now).out) ↔
    (sess.username ≠ cu ∧ sess.username ≠ recipient ∧
      getRankLevel sess.rank < getRankLevel conn.userRank) := by
  unfold privateMessage_mem
  rw [hcu]
  dsimp only
  rw [if_neg (by push_neg; exact ⟨hrec, hmsg⟩)]
  constructor
  · intro hmem
    rcases List.mem_append.mp hmem with h12 | hconf
    rcases List.mem_append.mp h12 with h1 | ho
    rcases List.mem_append.mp h1 with hd1 | hc
    · exfalso
      cases hd : findSessionByUser st recipient with
      | none => rw [hd] at hd1; cases hd1
      | some q =>
          rw [hd] at hd1
          rw [List.mem_singleton, Prod.mk.injEq] at hd1
          cases hd1.2
    · obtain ⟨q, hq, heq⟩ := List.mem_map.mp hc
      rw [Prod.mk.injEq, Target.socket.injEq] at heq
      have hq2 : q.2 = sess := by
        apply mapKeyUnique st.sessions sid q.2 sess hnd
        · rw [← heq.1]
          exact Prod.mk.eta ▸ (List.mem_filter.mp hq).1
        · exact hs
      have hcond := (List.mem_filter.mp hq).2
      rw [hq2] at hcond
      simpa using hcond
    · by_cases hor : conn.userRank = Rank.owner
      · rw [if_neg (by simp [hor])] at ho
        cases ho
      · rw [if_pos (by simpa using hor)] at ho
        obtain ⟨q, hq, heq⟩ := List.mem_map.mp ho
        rw [Prod.mk.injEq, Target.socket.injEq] at heq
        have hq2 : q.2 = sess := by
          apply mapKeyUnique st.sessions sid q.2 sess hnd
          · rw [← heq.1]
            exact Prod.mk.eta ▸ (List.mem_filter.mp hq).1
          · exact hs
        have hcond := (List.mem_filter.mp hq).2
        rw [hq2] at hcond
        simp only [decide_eq_true_eq] at hcond
        exact ⟨hcond.2.1, hcond.2.2, hcond.1 ▸ ownerLevel_lt conn.userRank hor⟩
    · exfalso
      rw [List.mem_singleton, Prod.mk.injEq] at hconf
      cases hconf.1
  · intro hcond
    apply List.mem_append.mpr
    left
    apply List.mem_append.mpr
    left
    apply List.mem_append.mpr
    right
    apply List.mem_map.mpr
    refine ⟨(sid, sess), ?_, rfl⟩
    apply List.mem_filter.mpr
    exact ⟨hs, by simpa using hcond⟩

/-- The untagged direct copy of a private message goes to exactly the first
registry session of the recipient. -/
theorem direct_mem_iff (conn : Conn) (st : MemState)
    (recipient message : String) (now : Nat) (cu sid2 : String)
    (p : String × SessRec)
    (hcu : conn.currentUser = some cu)
    (hrec : recipient ≠ "") (hmsg : message ≠ "")
    (hfirst : findSessionByUser st recipient = some p) :
    ((Target.socket sid2,
        Ev.privateMsg ⟨cu, conn.userRank, recipient, dirRank st recipient, message, now⟩
          false) ∈ (privateMessage_mem conn st recipient message now).out) ↔
    sid2 = p.1 := by
  unfold privateMessage_mem
  rw [hcu]
  dsimp only
  rw [if_neg (by push_neg; exact ⟨hrec, hmsg⟩), hfirst]
  constructor
  · intro hmem
    rcases List.mem_append.mp hmem with h12 | hconf
    rcases List.mem_append.mp h12 with h1 | ho
    rcases List.mem_append.mp h1 with hd1 | hc
    · rw [List.mem_singleton, Prod.mk.injEq, Target.socket.injEq] at hd1
      exact hd1.1
    · exfalso
      obtain ⟨q, _, heq⟩ := List.mem_map.mp hc
      rw [Prod.mk.injEq] at heq
      cases heq.2
    · exfalso
      split at ho
      · obtain ⟨q, _, heq⟩ := List.mem_map.mp ho
        rw [Prod.mk.injEq] at heq
        cases heq.2
      · cases ho
    · exfalso
      rw [List.mem_singleton, Prod.mk.injEq] at hconf
      cases hconf.1
  · intro hsid
    subst hsid
    apply List.mem_append.mpr
    left
    apply List.mem_append.mpr
    left
    apply List.mem_append.mpr
    left
    exact List.mem_singleton.mpr rfl

theorem drop_append_le {β : Type} (l1 l2 : List β) (n : Nat)
    (h : n ≤ l1.length) : (l1 ++ l2).drop n = l1.drop n ++ l2 := by
  induction l1 generalizing n with
  | nil =>
      simp at h
      subst h
      simp
  | cons x xs ih =>
      cases n with
      | zero => simp
      | succ k =>
          simp only [List.cons_append, List.drop_succ_cons]
          exact ih k (by simpa using h)

theorem pushBounded_length (h : List ChatMsg) (m : ChatMsg)
    (hl : h.length ≤ 100) : (pushBounded h m).length ≤ 100 := by
  unfold pushBounded
  dsimp only
  split
  · rename_i hlt
    simp only [List.length_drop, List.length_append, List.length_singleton]
    omega
  · rename_i hge
    simp only [List.length_append, List.length_singleton] at hge ⊢
    omega

theorem pushBounded_eq_dropExcess (h : List ChatMsg) (m : ChatMsg)
    (hl : h.length ≤ 100) :
    pushBounded h m = (h ++ [m]).drop ((h ++ [m]).length - 100) := by
  unfold pushBounded
  dsimp only
  split
  · rename_i hlt
    congr 1
    simp only [List.length_append, List.length_singleton] at hlt ⊢
    omega
  · rename_i hge
    simp only [List.length_append, List.length_singleton] at hge ⊢
    rw [show h.length + 1 - 100 = 0 by omega, List.drop_zero]

set_option maxRecDepth 4000 in
/-- Folding the push-then-shift append over any message sequence keeps
exactly the most recent 100 entries, oldest-first. -/
theorem foldl_pushBounded (ms : List ChatMsg) :
    ∀ acc : List ChatMsg, acc.length ≤ 100 →
      ms.foldl pushBounded acc = (acc ++ ms).drop ((acc ++ ms).length - 100) := by
  induction ms with
  | nil =>
      intro acc hacc
      simp only [List.foldl_nil, List.append_nil]
      rw [show acc.length - 100 = 0 by omega, List.drop_zero]
  | cons m ms ih =>
      intro acc hacc
      rw [List.foldl_cons, ih (pushBounded acc m) (pushBounded_length acc m hacc)]
      rw [pushBounded_eq_dropExcess acc m hacc]
      rw [List.append_cons acc m ms]
      rw [← drop_append_le (acc ++ [m]) ms ((acc ++ [m]).length - 100) (by omega)]
      rw [List.drop_drop]
      congr 1
      simp only [List.length_drop, List.length_append, List.length_singleton]
      have : acc.length + 1 ≤ 101 := by omega
      omega

/-- Success/rejection characterization of part_001's mute_user handler:
the mute is written exactly when the gate holds (mute has no password gate),
and a rejection leaves the mute map as the lazily-purged one and emits an
error to the caller. -/
theorem muteUser_p1_char (conn : Conn) (st : MemState)
    (issuer room target duration : String) (now : Nat)
    (hcu : conn.currentUser = some issuer) (hcr : conn.currentRoom = some room)
    (htgt : target ≠ "") :
    (sanctionAllowed conn st issuer room target now Perms.canMute false "" →
      muteRecorded (muteUser_p1 conn st target duration now).st room target
        ⟨room, now + parseDuration duration, issuer⟩) ∧
    (¬ sanctionAllowed conn st issuer room target now Perms.canMute false "" →
      (muteUser_p1 conn st target duration now).st.mutes =
        (isUserMuted st issuer room now).2.mutes ∧
      (muteUser_p1 conn st target duration now).out.length = 1 ∧
      ∀ te ∈ (muteUser_p1 conn st target duration now).out,
        te.1 = Target.caller ∧ ∃ msg, te.2 = Ev.errorEv msg) := by
  unfold muteUser_p1
  rw [hcu, hcr]
  dsimp only
  by_cases hm : (isUserMuted st issuer room now).1 = true
  · rw [if_pos hm]
    constructor
    · intro hall
      exact absurd hall.1 (by simp [hm])
    · intro _
      refine ⟨rfl, rfl, ?_⟩
      intro te hte
      simp only [List.mem_singleton] at hte
      subst hte
      exact ⟨rfl, "You are muted and cannot use commands", rfl⟩
  · rw [if_neg hm]
    rw [Bool.not_eq_true] at hm
    by_cases hperm : (PERMISSIONS conn.userRank).canMute = true
    · simp only [hperm, Bool.not_true, Bool.false_eq_true, if_false, if_neg htgt,
        dirRank_purge]
      by_cases hgate : getRankLevel (dirRank st target) ≤ getRankLevel conn.userRank ∧
          conn.userRank ≠ Rank.owner
      · rw [if_pos hgate]
        constructor
        · intro hall
          rcases hall.2.2.1 with hlt | hown
          · exact absurd hgate.1 (Nat.not_le_of_lt hlt)
          · exact absurd hown hgate.2
        · intro _
          refine ⟨rfl, rfl, ?_⟩
          intro te hte
          simp only [List.mem_singleton] at hte
          subst hte
          exact ⟨rfl, "Cannot mute users of equal or higher rank", rfl⟩
      · rw [if_neg hgate]
        constructor
        · intro _
          unfold muteRecorded
          dsimp only
          rw [mapGet_mapSet_self]
        · intro hnall
          exfalso
          apply hnall
          refine ⟨hm, hperm, ?_, by intro h; exact absurd h (by simp)⟩
          rcases Nat.lt_or_ge (getRankLevel conn.userRank)
              (getRankLevel (dirRank st target)) with hlt | hge
          · exact Or.inl hlt
          · by_contra hcon
            exact hgate ⟨hge, fun hown => hcon (Or.inr hown)⟩
    · simp only [hperm]
      simp only [Bool.not_false, if_true]
      constructor
      · intro hall
        exact absurd hall.2.1 hperm
      · intro _
        refine ⟨trivial, rfl, ?_⟩
        intro te hte
        simp only [List.mem_singleton] at hte
        subst hte
        exact ⟨rfl, "You do not have permission", rfl⟩

theorem login_mem_keepsMain (conn : Conn) (st : MemState) (sid u p : String)
    (h : mapHas st.rooms "Main") :
    mapHas (login_mem conn st sid u p).st.rooms "Main" := by
  unfold login_mem
  repeat' split
  all_goals exact h

theorem register_mem_keepsMain (conn : Conn) (st : MemState) (sid u p : String)
    (h : mapHas st.rooms "Main") :
    mapHas (register_mem conn st sid u p).st.rooms "Main" := by
  unfold register_mem
  repeat' split
  all_goals exact h

theorem logout_mem_keepsMain (conn : Conn) (st : MemState) (sid : String)
    (h : mapHas st.rooms "Main") :
    mapHas (logout_mem conn st sid).st.rooms "Main" := by
  unfold logout_mem
  dsimp only
  repeat' split
  all_goals exact h

theorem createRoom_mem_keepsMain (conn : Conn) (st : MemState)
    (sid roomName password theme : String) (h : mapHas st.rooms "Main") :
    mapHas (createRoom_mem conn st sid roomName password theme).st.rooms "Main" := by
  unfold createRoom_mem
  dsimp only
  repeat' split
  all_goals first
    | exact h
    | exact mapHas_mapSet _ _ _ _ h

theorem joinRoom_mem_keepsMain (conn : Conn) (st : MemState)
    (sid roomName password : String) (h : mapHas st.rooms "Main") :
    mapHas (joinRoom_mem conn st sid roomName password).st.rooms "Main" := by
  unfold joinRoom_mem
  dsimp only
  repeat' split
  all_goals exact h

theorem leaveRoom_mem_keepsMain (conn : Conn) (st : MemState) (sid : String)
    (now : Nat) (h : mapHas st.rooms "Main") :
    mapHas (leaveRoom_mem conn st sid now).st.rooms "Main" := by
  unfold leaveRoom_mem
  dsimp only
  repeat' split
  all_goals first
    | exact h
    | exact mapHas_mapSet _ _ _ _ h
    | exact mapHas_mapDel_ne _ _ _ (by rintro rfl; simp_all) h
    | exact mapHas_mapDel_ne _ _ _ (by rintro rfl; simp_all)
        (mapHas_mapSet _ _ _ _ h)

theorem chatMessage_p0_keepsMain (conn : Conn) (st : MemState)
    (message : String) (now : Nat) (h : mapHas st.rooms "Main") :
    mapHas (chatMessage_p0 conn st message now).st.rooms "Main" := by
  unfold chatMessage_p0
  dsimp only
  repeat' split
  all_goals first
    | exact h
    | exact mapHas_mapSet _ _ _ _ h

theorem chatMessage_p1_keepsMain (conn : Conn) (st : MemState)
    (message : String) (now : Nat) (h : mapHas st.rooms "Main") :
    mapHas (chatMessage_p1 conn st message now).st.rooms "Main" := by
  unfold chatMessage_p1
  dsimp only
  repeat' split
  all_goals first
    | exact h
    | (dsimp only; rw [isUserMuted_rooms]; exact h)
    | exact chatMessage_p0_keepsMain _ _ _ _ (by rw [isUserMuted_rooms]; exact h)

theorem shareFile_p1_keepsMain (conn : Conn) (st : MemState)
    (fileName : String) (now : Nat) (h : mapHas st.rooms "Main") :
    mapHas (shareFile_p1 conn st fileName now).st.rooms "Main" := by
  unfold shareFile_p1
  dsimp only
  repeat' split
  all_goals first
    | exact h
    | exact mapHas_mapSet _ _ _ _ h

theorem privateMessage_mem_keepsMain (conn : Conn) (st : MemState)
    (recipient message : String) (now : Nat) (h : mapHas st.rooms "Main") :
    mapHas (privateMessage_mem conn st recipient message now).st.rooms "Main" := by
  unfold privateMessage_mem
  dsimp only
  repeat' split
  all_goals exact h

theorem getPrivateHistory_mem_keepsMain (conn : Conn) (st : MemState)
    (h : mapHas st.rooms "Main") :
    mapHas (getPrivateHistory_mem conn st).st.rooms "Main" := by
  unfold getPrivateHistory_mem
  dsimp only
  repeat' split
  all_goals exact h

theorem clearMessages_p1_keepsMain (conn : Conn) (st : MemState)
    (password : String) (now : Nat) (h : mapHas st.rooms "Main") :
    mapHas (clearMessages_p1 conn st password now).st.rooms "Main" := by
  unfold clearMessages_p1
  dsimp only
  repeat' split
  all_goals first
    | exact h
    | (dsimp only; rw [isUserMuted_rooms]; exact h)
    | exact mapHas_mapSet _ _ _ _ (by rw [isUserMuted_rooms]; exact h)

theorem banUser_p1_keepsMain (conn : Conn) (st : MemState)
    (bannedUser duration password : String) (now : Nat)
    (h : mapHas st.rooms "Main") :
    mapHas (banUser_p1 conn st bannedUser duration password now).st.rooms "Main" := by
  unfold banUser_p1
  dsimp only
  repeat' split
  all_goals first
    | exact h
    | (dsimp only; rw [isUserMuted_rooms]; exact h)

theorem unbanUser_p1_keepsMain (conn : Conn) (st : MemState)
    (unbannedUser password : String) (now : Nat) (h : mapHas st.rooms "Main") :
    mapHas (unbanUser_p1 conn st unbannedUser password now).st.rooms "Main" := by
  unfold unbanUser_p1
  dsimp only
  repeat' split
  all_goals first
    | exact h
    | (dsimp only; rw [isUserMuted_rooms]; exact h)

theorem muteUser_p1_keepsMain (conn : Conn) (st : MemState)
    (mutedUser duration : String) (now : Nat) (h : mapHas st.rooms "Main") :
    mapHas (muteUser_p1 conn st mutedUser duration now).st.rooms "Main" := by
  unfold muteUser_p1
  dsimp only
  repeat' split
  all_goals first
    | exact h
    | (dsimp only; rw [isUserMuted_rooms]; exact h)

theorem unmuteUser_p1_keepsMain (conn : Conn) (st : MemState)
    (unmutedUser : String) (now : Nat) (h : mapHas st.rooms "Main") :
    mapHas (unmuteUser_p1 conn st unmutedUser now).st.rooms "Main" := by
  unfold unmuteUser_p1
  dsimp only
  repeat' split
  all_goals first
    | exact h
    | (dsimp only; rw [isUserMuted_rooms]; exact h)

theorem deleteRoom_mem_keepsMain (conn : Conn) (st : MemState)
    (roomName password : String) (h : mapHas st.rooms "Main") :
    mapHas (deleteRoom_mem conn st roomName password).st.rooms "Main" := by
  unfold deleteRoom_mem
  dsimp only
  repeat' split
  all_goals first
    | exact h
    | exact mapHas_mapDel_ne _ _ _ (by rintro rfl; simp_all) h

theorem grantRank_p0_keepsMain (conn : Conn) (st : MemState)
    (targetUser : String) (newRank : Rank) (password : String)
    (h : mapHas st.rooms "Main") :
    mapHas (grantRank_p0 conn st targetUser newRank password).st.rooms "Main" := by
  unfold grantRank_p0
  dsimp only
  repeat' split
  all_goals exact h

theorem grantRank_p1_keepsMain (conn : Conn) (st : MemState)
    (targetUser : String) (newRank : Rank) (password : String) (now : Nat)
    (h : mapHas st.rooms "Main") :
    mapHas (grantRank_p1 conn st targetUser newRank password now).st.rooms "Main" := by
  unfold grantRank_p1
  dsimp only
  repeat' split
  all_goals first
    | exact h
    | (dsimp only; rw [isUserMuted_rooms]; exact h)
    | exact grantRank_p0_keepsMain _ _ _ _ _ (by rw [isUserMuted_rooms]; exact h)
    | exact grantRank_p0_keepsMain _ _ _ _ _ h

theorem changeTheme_p1_keepsMain (conn : Conn) (st : MemState)
    (theme scope : String) (now : Nat) (h : mapHas st.rooms "Main") :
    mapHas (changeTheme_p1 conn st theme scope now).st.rooms "Main" := by
  unfold changeTheme_p1
  dsimp only
  repeat' split
  all_goals first
    | exact h
    | (dsimp only; rw [isUserMuted_rooms]; exact h)
    | exact mapHas_mapSet _ _ _ _ h
    | exact mapHas_mapSet _ _ _ _ (by rw [isUserMuted_rooms]; exact h)

theorem disconnect_mem_keepsMain (conn : Conn) (st : MemState) (sid : String)
    (now : Nat) (h : mapHas st.rooms "Main") :
    mapHas (disconnect_mem conn st sid now).st.rooms "Main" := by
  unfold disconnect_mem
  dsimp only
  exact h

end Lemmas

/-- C7: the claim describes `parseDuration` (part_001 lines 475-488, used by
mute_user) correctly — a matched `^(\d+)([mhd])$` yields the amount in the
given unit and anything else yields 10 minutes — but the inline duration
parsing of the ban_user handlers (server.js lines 1406-1415, identical in
part_000/part_001) never handles the `m` unit: a ban of duration "5m" lasts
the 10-minute default instead of 5 minutes, while "2h"/"3d" are honored. -/
theorem C7_ban_minutes_bug :
    parseDuration "5m" = 5 * 60 * 1000 ∧
    banDurationMs "5m" = 10 * 60 * 1000 ∧
    banDurationMs "5m" ≠ 5 * 60 * 1000 ∧
    parseDuration "2h" = 2 * 60 * 60 * 1000 ∧
    banDurationMs "2h" = 2 * 60 * 60 * 1000 ∧
    parseDuration "3d" = 3 * 24 * 60 * 60 * 1000 ∧
    banDurationMs "3d" = 3 * 24 * 60 * 60 * 1000 ∧
    parseDuration "soon" = 10 * 60 * 1000 ∧
    banDurationMs "soon" = 10 * 60 * 1000 := by decide

/-- C1 (counterexample): with issuer rank vip and target rank member the
claimed condition `level(a) < level(b) ∨ a = owner` holds, yet part_001's
ban_user rejects the ban (vip lacks canBan) and records no sanction — so the
claimed "permitted if and only if" is false at this input. -/
theorem C1_counterexample :
    (getRankLevel Rank.vip < getRankLevel (dirRank c1st "bob") ∨
      Rank.vip = Rank.owner) ∧
    c1conn.userRank = Rank.vip ∧
    (banUser_p1 c1conn c1st "bob" "10m" "" 0).st = c1st ∧
    (banUser_p1 c1conn c1st "bob" "10m" "" 0).out =
      [(Target.caller, Ev.errorEv "You do not have permission")] := by decide

/-- C1 (amended): in part_001, a ban or mute of target b by issuer a succeeds
— the sanction record is written — exactly when, in addition to the claimed
rank condition `level(a) < level(b) or a = owner`, the issuer is not muted in
the room, the issuer's rank carries the canBan/canMute permission (so vip and
member can never sanction even below their level), and a moderator issuing a
ban supplies the admin password; otherwise the operation rejects with a
single error event to the caller and records no sanction. -/
theorem C1_sanction_gate (conn : Conn) (st : MemState)
    (issuer room target duration password : String) (now : Nat)
    (hcu : conn.currentUser = some issuer) (hcr : conn.currentRoom = some room)
    (htgt : target ≠ "") :
    ((sanctionAllowed conn st issuer room target now Perms.canBan true password →
      banRecorded (banUser_p1 conn st target duration password now).st room target
        ⟨now + banDurationMs duration, issuer⟩) ∧
     (¬ sanctionAllowed conn st issuer room target now Perms.canBan true password →
      (banUser_p1 conn st target duration password now).st.bans = st.bans ∧
      (banUser_p1 conn st target duration password now).out.length = 1 ∧
      ∀ te ∈ (banUser_p1 conn st target duration password now).out,
        te.1 = Target.caller ∧ ∃ msg, te.2 = Ev.errorEv msg)) ∧
    ((sanctionAllowed conn st issuer room target now Perms.canMute false "" →
      muteRecorded (muteUser_p1 conn st target duration now).st room target
        ⟨room, now + parseDuration duration, issuer⟩) ∧
     (¬ sanctionAllowed conn st issuer room target now Perms.canMute false "" →
      (muteUser_p1 conn st target duration now).st.mutes =
        (isUserMuted st issuer room now).2.mutes ∧
      (muteUser_p1 conn st target duration now).out.length = 1 ∧
      ∀ te ∈ (muteUser_p1 conn st target duration now).out,
        te.1 = Target.caller ∧ ∃ msg, te.2 = Ev.errorEv msg)) :=
  ⟨banUser_p1_char conn st issuer room target duration password now hcu hcr htgt,
   muteUser_p1_char conn st issuer room target duration now hcu hcr htgt⟩

/-- C8 (counterexample): in the shared in-memory login of part_000 lines
578-588 / part_001 lines 615-624, a username absent from the directory is
auto-created as a member account, a session is registered and login succeeds
— login does not fail with NotFound. -/
theorem C8_counterexample :
    mapGet c8st.users "zoe" = none ∧
    (login_mem ⟨none, none, Rank.member⟩ c8st "s1" "zoe" "secret9").out =
      [(Target.caller, Ev.authSuccess "zoe" Rank.member)] ∧
    mapGet (login_mem ⟨none, none, Rank.member⟩ c8st "s1" "zoe" "secret9").st.users
      "zoe" = some ⟨"zoe", "secret9", Rank.member, "default"⟩ ∧
    mapGet (login_mem ⟨none, none, Rank.member⟩ c8st "s1" "zoe" "secret9").st.sessions
      "s1" = some ⟨"zoe", Rank.member, none⟩ := by decide

/-- C8 (amended): on server.js's database path, login never creates a user:
an absent username fails with `Username not found` and a present username
with a mismatched password fails with `Incorrect password`, in both cases
leaving the store and the connection closure unchanged (so no session is
created either). -/
theorem C8_login_no_autocreate_db (conn1 conn2 : Conn) (db1 db2 : DbState)
    (sid1 sid2 username1 username2 password1 password2 : String) (u : DbUser)
    (h1 : username1 ≠ "") (h2 : password1 ≠ "")
    (hfind1 : db1.users.find? (fun v => v.username = username1) = none)
    (h3 : username2 ≠ "") (h4 : password2 ≠ "")
    (hfind2 : db2.users.find? (fun v => v.username = username2) = some u)
    (hmis : u.password ≠ password2) :
    ((login_db conn1 db1 sid1 username1 password1).out =
        [(Target.caller, Ev.authError "Username not found")] ∧
     (login_db conn1 db1 sid1 username1 password1).db = db1 ∧
     (login_db conn1 db1 sid1 username1 password1).conn = conn1) ∧
    ((login_db conn2 db2 sid2 username2 password2).out =
        [(Target.caller, Ev.authError "Incorrect password")] ∧
     (login_db conn2 db2 sid2 username2 password2).db = db2 ∧
     (login_db conn2 db2 sid2 username2 password2).conn = conn2) := by
  constructor
  · unfold login_db
    rw [if_neg (by push_neg; exact ⟨h1, h2⟩), hfind1]
    exact ⟨rfl, rfl, rfl⟩
  · unfold login_db
    rw [if_neg (by push_neg; exact ⟨h3, h4⟩), hfind2]
    dsimp only
    rw [if_pos hmis]
    exact ⟨rfl, rfl, rfl⟩

/-- C8 witness: at the concrete one-user database, an unknown user gets
`Username not found` and frank with a wrong password gets
`Incorrect password`. -/
theorem C8_login_no_autocreate_db_witness :
    (login_db ⟨none, none, Rank.member⟩ c8db "s1" "zoe" "pw123").out =
      [(Target.caller, Ev.authError "Username not found")] ∧
    (login_db ⟨none, none, Rank.member⟩ c8db "s2" "frank" "wrongpw").out =
      [(Target.caller, Ev.authError "Incorrect password")] :=
  ⟨(C8_login_no_autocreate_db ⟨none, none, Rank.member⟩ ⟨none, none, Rank.member⟩
      c8db c8db "s1" "s2" "zoe" "frank" "pw123" "wrongpw"
      ⟨"frank", "goodpw", Rank.member, "default"⟩ (by decide) (by decide) (by decide)
      (by decide) (by decide) (by decide) (by decide)).1.1,
   (C8_login_no_autocreate_db ⟨none, none, Rank.member⟩ ⟨none, none, Rank.member⟩
      c8db c8db "s1" "s2" "zoe" "frank" "pw123" "wrongpw"
      ⟨"frank", "goodpw", Rank.member, "default"⟩ (by decide) (by decide) (by decide)
      (by decide) (by decide) (by decide) (by decide)).2.1⟩

/-- C4 (code_bug evidence): in server.js, when the sole member of the
non-default room Lounge disconnects, the session document is removed but the
room remains in the store and the handler emits only the leave notice and the
system message — no room_deleted. The leave_room path at the corresponding
in-memory state does delete the room and broadcast the removal. -/
theorem C4_disconnect_no_reclamation :
    (disconnect_db c4conn c4db "s1" 7).db.rooms = c4db.rooms ∧
    ((disconnect_db c4conn c4db "s1" 7).db.rooms.find?
        (fun r => r.name = "Lounge")).isSome = true ∧
    (disconnect_db c4conn c4db "s1" 7).db.sessions = [] ∧
    (disconnect_db c4conn c4db "s1" 7).out =
      [(Target.room "Lounge", Ev.userLeft "erin" 0),
       (Target.room "Lounge", Ev.chatMsg ⟨"System", "erin disconnected", "system", 7⟩)] ∧
    mapGet (leaveRoom_mem c4conn c4mst "s1" 7).st.rooms "Lounge" = none ∧
    (Target.all, Ev.roomDeleted "Lounge") ∈ (leaveRoom_mem c4conn c4mst "s1" 7).out := by
  decide

/-- Record updates that do not touch sessions leave the recipient lookup
unchanged. -/
theorem findSessionByUser_set_users (st : MemState) (k : String) (v : UserRec)
    (t : String) :
    findSessionByUser { st with users := mapSet st.users k v } t =
      findSessionByUser st t := rfl

/-- C9 (counterexample): after owner alice grants bob the moderator rank at
the concrete system, the directory and bob's registry entry hold moderator,
but bob's connection closure still holds member, and bob's next ban_user
attempt is rejected by the permission check with `You do not have permission`
even though moderator has canBan — the same-connection permission check does
not use the new rank. -/
theorem C9_counterexample :
    mapGet c9sys2.mem.users "bob" = some ⟨"bob", "pw", Rank.moderator, "default"⟩ ∧
    mapGet c9sys2.mem.sessions "s2" = some ⟨"bob", Rank.moderator, some "Main"⟩ ∧
    getConn c9sys2 "s2" = ⟨some "bob", some "Main", Rank.member⟩ ∧
    (PERMISSIONS Rank.moderator).canBan = true ∧
    (runOp (getConn c9sys2 "s2") c9sys2.mem "s2"
        (Op.banUser "mel" "10m" ADMIN_PASSWORD) 0).out =
      [(Target.caller, Ev.errorEv "You do not have permission")] := by decide

/-- C9 (amended): a successful grant_rank updates the UserDirectory entry and
the first matching registry session of the target, but leaves every other
connection's closure — including the target's own cached `userRank`, which
permission checks consult — unchanged until re-authentication. -/
theorem C9_grant_rank_behavior (sys : Sys) (sid sidT targetUser password : String)
    (newRank : Rank) (now : Nat) (issuer : String) (user : UserRec)
    (p : String × SessRec)
    (hcu : (getConn sys sid).currentUser = some issuer)
    (hroom : (getConn sys sid).currentRoom = none)
    (hperm : (PERMISSIONS (getConn sys sid).userRank).canGrant.length ≠ 0)
    (htgt : targetUser ≠ "")
    (hgrant : (PERMISSIONS (getConn sys sid).userRank).canGrant.contains newRank = true)
    (hpwd : ¬((getConn sys sid).userRank ≠ Rank.owner ∧ password ≠ ADMIN_PASSWORD))
    (huser : mapGet sys.mem.users targetUser = some user)
    (hsess : findSessionByUser sys.mem targetUser = some p)
    (hT : sidT ≠ sid) :
    mapGet (step sys sid (Op.grantRank targetUser newRank password) now).mem.users
      targetUser = some { user with rank := newRank } ∧
    mapGet (step sys sid (Op.grantRank targetUser newRank password) now).mem.sessions
      p.1 = some { p.2 with rank := newRank } ∧
    getConn (step sys sid (Op.grantRank targetUser newRank password) now) sidT =
      getConn sys sidT := by
  unfold step runOp
  unfold grantRank_p1
  rw [hcu, hroom]
  dsimp only
  unfold grantRank_p0
  rw [hcu]
  dsimp only
  rw [if_neg hperm, if_neg htgt]
  simp only [hgrant, Bool.not_true, Bool.false_eq_true, if_false]
  rw [if_neg hpwd, huser]
  dsimp only
  rw [findSessionByUser_set_users, hsess]
  dsimp only
  refine ⟨?_, ?_, ?_⟩
  · exact mapGet_mapSet_self _ _ _
  · exact mapGet_mapSet_self _ _ _
  · unfold getConn
    rw [mapGet_mapSet_ne _ _ _ _ hT]

/-- C9 witness: the concrete grant of moderator to bob by owner alice,
showing the updated directory and registry entries and bob's untouched
closure. -/
theorem C9_grant_rank_behavior_witness :
    mapGet (step c9sys "s1" (Op.grantRank "bob" Rank.moderator "") 0).mem.users
      "bob" = some ⟨"bob", "pw", Rank.moderator, "default"⟩ ∧
    mapGet (step c9sys "s1" (Op.grantRank "bob" Rank.moderator "") 0).mem.sessions
      "s2" = some ⟨"bob", Rank.moderator, some "Main"⟩ ∧
    getConn (step c9sys "s1" (Op.grantRank "bob" Rank.moderator "") 0) "s2" =
      getConn c9sys "s2" :=
  C9_grant_rank_behavior c9sys "s1" "s2" "bob" "" Rank.moderator 0 "alice"
    ⟨"bob", "pw", Rank.member, "default"⟩ ("s2", ⟨"bob", Rank.member, some "Main"⟩)
    (by decide) (by decide) (by decide) (by decide) (by decide) (by decide)
    (by decide) (by decide) (by decide)

/-- C5 (confirmed): the tagged observer copy of a private message is
delivered to exactly those other connected sessions (besides sender and
recipient) whose rank level is strictly lower numerically than the sender's
level, and the private-history filter admits exactly a viewer's own messages
plus those whose sender level is strictly above the viewer's level. -/
theorem C5_pm_cascade (conn : Conn) (st : MemState)
    (recipient message : String) (now : Nat) (cu sid : String) (sess : SessRec)
    (vconn : Conn) (st2 : MemState) (vu : String) (hist : List PMsg) (pmsg : PMsg)
    (hcu : conn.currentUser = some cu)
    (hrec : recipient ≠ "") (hmsg : message ≠ "")
    (hnd : (st.sessions.map Prod.fst).Nodup) (hs : (sid, sess) ∈ st.sessions)
    (hvcu : vconn.currentUser = some vu)
    (hout : (Target.caller, Ev.privateHistory hist) ∈
      (getPrivateHistory_mem vconn st2).out)
    (hpm : pmsg ∈ st2.privateMessages) :
    (((Target.socket sid,
        Ev.privateMsg ⟨cu, conn.userRank, recipient, dirRank st recipient, message, now⟩
          true) ∈ (privateMessage_mem conn st recipient message now).out) ↔
      (sess.username ≠ cu ∧ sess.username ≠ recipient ∧
        getRankLevel sess.rank < getRankLevel conn.userRank)) ∧
    ((pmsg ∈ hist) ↔
      (pmsg.from_ = vu ∨ pmsg.toU = vu ∨
        getRankLevel vconn.userRank < getRankLevel pmsg.fromRank)) := by
  constructor
  · exact observer_mem_iff conn st recipient message now cu sid sess hcu hrec hmsg hnd hs
  · unfold getPrivateHistory_mem at hout
    rw [hvcu] at hout
    dsimp only at hout
    rw [List.mem_singleton, Prod.mk.injEq] at hout
    have hh := hout.2
    rw [Ev.privateHistory.injEq] at hh
    rw [hh, List.mem_filter]
    simp [hpm]

/-- C5 witness: moderator mona sends rex a private message while admin ada
and member mel are online; ada's session s3 receives the tagged copy, mel's
session s4 does not, and ada's private-history filter admits the stored
message. -/
theorem C5_pm_cascade_witness :
    ((Target.socket "s3",
        Ev.privateMsg ⟨"mona", Rank.moderator, "rex", dirRank c5st "rex", "hi", 3⟩
          true) ∈ (privateMessage_mem c5conn c5st "rex" "hi" 3).out) ∧
    ¬((Target.socket "s4",
        Ev.privateMsg ⟨"mona", Rank.moderator, "rex", dirRank c5st "rex", "hi", 3⟩
          true) ∈ (privateMessage_mem c5conn c5st "rex" "hi" 3).out) ∧
    (c5pm ∈ [c5pm] ↔
      (c5pm.from_ = "ada" ∨ c5pm.toU = "ada" ∨
        getRankLevel c5vconn.userRank < getRankLevel c5pm.fromRank)) :=
  ⟨(C5_pm_cascade c5conn c5st "rex" "hi" 3 "mona" "s3" ⟨"ada", Rank.admin, some "Main"⟩
      c5vconn c5st2 "ada" [c5pm] c5pm rfl (by decide) (by decide) (by decide)
      (by decide) rfl (by decide) (by decide)).1.mpr (by decide),
   fun h => absurd
     ((C5_pm_cascade c5conn c5st "rex" "hi" 3 "mona" "s4" ⟨"mel", Rank.member, some "Main"⟩
        c5vconn c5st2 "ada" [c5pm] c5pm rfl (by decide) (by decide) (by decide)
        (by decide) rfl (by decide) (by decide)).1.mp h) (by decide),
   (C5_pm_cascade c5conn c5st "rex" "hi" 3 "mona" "s3" ⟨"ada", Rank.admin, some "Main"⟩
      c5vconn c5st2 "ada" [c5pm] c5pm rfl (by decide) (by decide) (by decide)
      (by decide) rfl (by decide) (by decide)).2⟩

/-- C10 (confirmed): the direct copy of a private message is delivered to
exactly the first registry session of the recipient in iteration order; the
recipient's other sessions receive neither the direct copy nor an observer
copy. -/
theorem C10_single_delivery (conn : Conn) (st : MemState)
    (recipient message sid2 sid3 : String) (now : Nat) (cu : String)
    (p : String × SessRec) (sess3 : SessRec)
    (hcu : conn.currentUser = some cu)
    (hrec : recipient ≠ "") (hmsg : message ≠ "")
    (hnd : (st.sessions.map Prod.fst).Nodup)
    (hfirst : findSessionByUser st recipient = some p)
    (hin : (Target.socket sid2,
        Ev.privateMsg ⟨cu, conn.userRank, recipient, dirRank st recipient, message, now⟩
          false) ∈ (privateMessage_mem conn st recipient message now).out)
    (hs3 : (sid3, sess3) ∈ st.sessions) (hs3u : sess3.username = recipient) :
    ((Target.socket p.1,
        Ev.privateMsg ⟨cu, conn.userRank, recipient, dirRank st recipient, message, now⟩
          false) ∈ (privateMessage_mem conn st recipient message now).out) ∧
    sid2 = p.1 ∧
    ¬((Target.socket sid3,
        Ev.privateMsg ⟨cu, conn.userRank, recipient, dirRank st recipient, message, now⟩
          true) ∈ (privateMessage_mem conn st recipient message now).out) := by
  refine ⟨(direct_mem_iff conn st recipient message now cu p.1 p hcu hrec hmsg
      hfirst).mpr rfl,
    (direct_mem_iff conn st recipient message now cu sid2 p hcu hrec hmsg
      hfirst).mp hin, ?_⟩
  intro hmem
  have hcond := (observer_mem_iff conn st recipient message now cu sid3 sess3
    hcu hrec hmsg hnd hs3).mp hmem
  exact hcond.2.1 hs3u

/-- C10 witness: rex is connected twice (s2 first, then s5); the direct copy
goes to s2 only and s5 receives no copy at all. -/
theorem C10_single_delivery_witness :
    ((Target.socket "s2",
        Ev.privateMsg ⟨"mona", Rank.moderator, "rex", dirRank c10st "rex", "yo", 4⟩
          false) ∈ (privateMessage_mem c10conn c10st "rex" "yo" 4).out) ∧
    "s2" = ("s2", (⟨"rex", Rank.member, some "Main"⟩ : SessRec)).1 ∧
    ¬((Target.socket "s5",
        Ev.privateMsg ⟨"mona", Rank.moderator, "rex", dirRank c10st "rex", "yo", 4⟩
          true) ∈ (privateMessage_mem c10conn c10st "rex" "yo" 4).out) :=
  C10_single_delivery c10conn c10st "rex" "yo" "s2" "s5" 4 "mona"
    ("s2", ⟨"rex", Rank.member, some "Main"⟩) ⟨"rex", Rank.member, none⟩
    rfl (by decide) (by decide) (by decide) (by decide) (by decide)
    (by decide) (by decide)

/-- C2 (confirmed, server.js database path): a user holding an active
unexpired ban for a room cannot join it even with the correct password — the
join rejects with the ban error and leaves store and connection unchanged —
and a ban issued against a user whose session is currently in the room emits
the eager force_leave eviction directive to that session. -/
theorem C2_ban_blocks_join_and_evicts
    (conn issuerConn : Conn) (db : DbState) (sid : String)
    (roomName password bannedUser duration password2 : String) (now : Nat)
    (cu issuer cr : String) (room : DbRoom) (b : BanDoc) (s : SessDoc)
    (hcu : conn.currentUser = some cu)
    (hroom : db.rooms.find? (fun r => r.name = roomName) = some room)
    (hpw : ¬(room.password ≠ "" ∧ room.password ≠ password))
    (hban : b ∈ db.bans) (hbr : b.roomName = roomName) (hbu : b.username = cu)
    (hact : b.isActive = true) (hexp : now < b.expiresAt)
    (hicu : issuerConn.currentUser = some issuer)
    (hicr : issuerConn.currentRoom = some cr)
    (hiperm : (PERMISSIONS issuerConn.userRank).canBan = true)
    (hbu2 : bannedUser ≠ "")
    (hipw : ¬(issuerConn.userRank = Rank.moderator ∧ password2 ≠ ADMIN_PASSWORD))
    (hfind : db.sessions.find?
      (fun t => t.username = bannedUser ∧ t.roomName = some cr) = some s) :
    ((joinRoom_db conn db sid roomName password now).out =
        [(Target.caller, Ev.errorEv "You are banned from this room")] ∧
     (joinRoom_db conn db sid roomName password now).db = db ∧
     (joinRoom_db conn db sid roomName password now).conn = conn) ∧
    (Target.socket s.socketId, Ev.forceLeave cr "banned") ∈
      (banUser_db issuerConn db bannedUser duration password2 now).out := by
  constructor
  · have hb : activeBanExists db roomName cu now = true := by
      unfold activeBanExists
      rw [List.any_eq_true]
      exact ⟨b, hban, by simp [hbr, hbu, hact, hexp]⟩
    unfold joinRoom_db
    rw [hcu, hroom]
    dsimp only
    rw [if_neg hpw, if_pos hb]
    exact ⟨rfl, rfl, rfl⟩
  · unfold banUser_db
    rw [hicu, hicr]
    dsimp only
    simp only [hiperm, Bool.not_true, Bool.false_eq_true, if_false, if_neg hbu2,
      if_neg hipw]
    rw [hfind]
    dsimp only
    apply List.mem_append.mpr
    right
    exact List.mem_singleton.mpr rfl

/-- C2 witness: carol, actively banned from Lounge, is rejected when joining
with the correct password `"sekret"`, and banning dave (present in Lounge via
session s5) emits the force_leave eviction to s5. -/
theorem C2_ban_blocks_join_and_evicts_witness :
    ((joinRoom_db c2conn c2db "s9" "Lounge" "sekret" 100).out =
        [(Target.caller, Ev.errorEv "You are banned from this room")] ∧
     (joinRoom_db c2conn c2db "s9" "Lounge" "sekret" 100).db = c2db ∧
     (joinRoom_db c2conn c2db "s9" "Lounge" "sekret" 100).conn = c2conn) ∧
    (Target.socket "s5", Ev.forceLeave "Lounge" "banned") ∈
      (banUser_db c2issuer c2db "dave" "10m" "" 100).out :=
  C2_ban_blocks_join_and_evicts c2conn c2issuer c2db "s9" "Lounge" "sekret"
    "dave" "10m" "" 100 "carol" "adm" "Lounge"
    ⟨"Lounge", "sekret", false, "default"⟩ ⟨"Lounge", "carol", "adm", 5000, true⟩
    ⟨"s5", "dave", Rank.member, some "Lounge"⟩
    rfl (by decide) (by decide) (by decide) (by decide) (by decide) (by decide)
    (by decide) rfl rfl (by decide) (by decide) (by decide) (by decide)

set_option maxRecDepth 40000 in
/-- C6 (counterexample): on the claim's cited history-delivery path — the
server.js database join — 150 stored messages yield a room_history of only
50 messages, and (the chained Mongoose sorts merging into a single ascending
sort) they are the 50 oldest of the room, not the claimed most recent 100. -/
theorem C6_counterexample :
    (dbRoomHistory c6db "Lounge").length = 50 ∧
    dbRoomHistory c6db "Lounge" = c6msgs.take 50 ∧
    (Target.caller,
      Ev.roomHistory ((dbRoomHistory c6db "Lounge").map msgDocToChat)) ∈
      (joinRoom_db c6conn c6db "s9" "Lounge" "" 1000).out ∧
    ((dbRoomHistory c6db "Lounge").map msgDocToChat).length ≠ 100 := by decide

/-- C6 (amended): the in-memory room history is a capacity-100 drop-oldest
buffer — folding 150 appends leaves exactly the most recent 100 in
oldest-first order — and a fresh in-memory join delivers the full buffer to
the caller; the chat handler appends through this bound; the server.js
database join instead delivers at most 50 messages (the room's oldest, the
chained Mongoose sorts merging into one ascending sort). -/
theorem C6_history_bound (ms : List ChatMsg) (conn : Conn) (st : MemState)
    (sid roomName password message : String) (now : Nat) (cu : String)
    (room : RoomRec) (db : DbState) (rn : String)
    (h150 : ms.length = 150)
    (hcu : conn.currentUser = some cu)
    (hroom : mapGet st.rooms roomName = some room)
    (hpw : ¬(room.password ≠ "" ∧ room.password ≠ password)) :
    ms.foldl pushBounded [] = ms.drop 50 ∧
    (ms.drop 50).length = 100 ∧
    (Target.caller, Ev.roomHistory room.messages) ∈
      (joinRoom_mem conn st sid roomName password).out ∧
    (conn.currentRoom = some roomName →
      mapGet (chatMessage_p0 conn st message now).st.rooms roomName =
        some { room with messages := pushBounded room.messages ⟨cu, message, rankStr conn.userRank, now⟩ }) ∧
    (dbRoomHistory db rn).length ≤ 50 := by
  refine ⟨?_, ?_, ?_, ?_, ?_⟩
  · rw [foldl_pushBounded ms [] (by simp)]
    simp [h150]
  · simp [h150]
  · unfold joinRoom_mem
    rw [hcu, hroom]
    dsimp only
    rw [if_neg hpw]
    simp
  · intro hcr
    unfold chatMessage_p0
    rw [hcu, hcr]
    dsimp only
    rw [hroom]
    dsimp only
    exact mapGet_mapSet_self _ _ _
  · unfold dbRoomHistory
    rw [List.length_take]
    exact Nat.min_le_left _ _

set_option maxRecDepth 40000 in
/-- C6 witness: 150 concrete messages fold to their last 100; a fresh join of
Main delivers that buffer; an append goes through the bound; the database
history of the 150-message Lounge store is capped at 50. -/
theorem C6_history_bound_witness :
    c6cms.foldl pushBounded [] = c6cms.drop 50 ∧
    (c6cms.drop 50).length = 100 ∧
    (Target.caller, Ev.roomHistory (⟨"Main", "", true, c6cms.drop 50, "default"⟩ : RoomRec).messages) ∈
      (joinRoom_mem ⟨some "carol", some "Main", Rank.member⟩ c6wst "s9" "Main" "").out ∧
    ((⟨some "carol", some "Main", Rank.member⟩ : Conn).currentRoom = some "Main" →
      mapGet (chatMessage_p0 ⟨some "carol", some "Main", Rank.member⟩ c6wst "x" 99).st.rooms
        "Main" =
        some { (⟨"Main", "", true, c6cms.drop 50, "default"⟩ : RoomRec) with messages := pushBounded (c6cms.drop 50) ⟨"carol", "x", "member", 99⟩ }) ∧
    (dbRoomHistory c6db "Lounge").length ≤ 50 :=
  C6_history_bound c6cms ⟨some "carol", some "Main", Rank.member⟩ c6wst "s9"
    "Main" "" "x" 99 "carol" ⟨"Main", "", true, c6cms.drop 50, "default"⟩ c6db
    "Lounge" (by decide) rfl (by decide) (by decide)

/-- C3 (confirmed): across every inbound command of the in-memory protocol,
the default room `"Main"` is never removed from the room store — in
particular the empty-room auto-deletion of leave_room explicitly spares it —
and delete_room on `"Main"` never mutates the store and can only answer with
a permission, password, or cannot-delete-Main error to the caller. -/
theorem C3_default_room_invariant :
    (∀ (sys : Sys) (sid : String) (op : Op) (now : Nat),
        mainPresent sys → mainPresent (step sys sid op now)) ∧
    (∀ (conn : Conn) (st : MemState) (password : String),
        (deleteRoom_mem conn st "Main" password).st = st ∧
        ∀ te ∈ (deleteRoom_mem conn st "Main" password).out,
          te.1 = Target.caller ∧
          (te.2 = Ev.errorEv "You do not have permission" ∨
           te.2 = Ev.errorEv "Incorrect password" ∨
           te.2 = Ev.errorEv "Cannot delete Main room")) := by
  constructor
  · intro sys sid op now h
    unfold mainPresent at h ⊢
    unfold step
    dsimp only
    cases op with
    | login u p => exact login_mem_keepsMain _ _ _ _ _ h
    | register u p => exact register_mem_keepsMain _ _ _ _ _ h
    | logout => exact logout_mem_keepsMain _ _ _ h
    | createRoom r p t => exact createRoom_mem_keepsMain _ _ _ _ _ _ h
    | joinRoom r p => exact joinRoom_mem_keepsMain _ _ _ _ _ h
    | leaveRoom => exact leaveRoom_mem_keepsMain _ _ _ _ h
    | chatMessage m => exact chatMessage_p1_keepsMain _ _ _ _ h
    | shareFile f => exact shareFile_p1_keepsMain _ _ _ _ h
    | privateMessage r m => exact privateMessage_mem_keepsMain _ _ _ _ _ h
    | getPrivateHistory => exact getPrivateHistory_mem_keepsMain _ _ h
    | clearMessages p => exact clearMessages_p1_keepsMain _ _ _ _ h
    | banUser b d p => exact banUser_p1_keepsMain _ _ _ _ _ _ h
    | unbanUser u p => exact unbanUser_p1_keepsMain _ _ _ _ _ h
    | muteUser m d => exact muteUser_p1_keepsMain _ _ _ _ _ h
    | unmuteUser u => exact unmuteUser_p1_keepsMain _ _ _ _ h
    | deleteRoom r p => exact deleteRoom_mem_keepsMain _ _ _ _ h
    | grantRank t r p => exact grantRank_p1_keepsMain _ _ _ _ _ _ h
    | changeTheme t s => exact changeTheme_p1_keepsMain _ _ _ _ _ h
    | disconnect => exact disconnect_mem_keepsMain _ _ _ _ h
  · intro conn st password
    unfold deleteRoom_mem
    cases hcu : conn.currentUser with
    | none =>
        dsimp only
        exact ⟨rfl, by intro te hte; cases hte⟩
    | some cu =>
        dsimp only
        by_cases hperm : (PERMISSIONS conn.userRank).canDeleteRoom = true
        · simp only [hperm, Bool.not_true, Bool.false_eq_true, if_false]
          rw [if_neg (by decide : ¬("Main" : String) = "")]
          by_cases hpw : conn.userRank ≠ Rank.admin ∧ conn.userRank ≠ Rank.owner ∧
              password ≠ ADMIN_PASSWORD
          · rw [if_pos hpw]
            refine ⟨rfl, ?_⟩
            intro te hte
            rw [List.mem_singleton] at hte
            subst hte
            exact ⟨rfl, by simp⟩
          · rw [if_neg hpw, if_pos trivial]
            refine ⟨rfl, ?_⟩
            intro te hte
            rw [List.mem_singleton] at hte
            subst hte
            exact ⟨rfl, by simp⟩
        · simp only [hperm]
          simp only [Bool.not_false, if_true]
          refine ⟨trivial, ?_⟩
          intro te hte
          rw [List.mem_singleton] at hte
          subst hte
          exact ⟨rfl, by simp⟩

/-- C3 witness: at the seeded one-room system, Main survives a delete_room of
another room, and delete_room on Main by an owner leaves the store
untouched. -/
theorem C3_default_room_invariant_witness :
    mainPresent (step c3sys "s1" (Op.deleteRoom "Lounge" ADMIN_PASSWORD) 5) ∧
    (deleteRoom_mem ⟨some "alice", none, Rank.owner⟩ c3sys.mem "Main" "").st =
      c3sys.mem :=
  ⟨C3_default_room_invariant.1 c3sys "s1" (Op.deleteRoom "Lounge" ADMIN_PASSWORD)
      5 (by decide),
   (C3_default_room_invariant.2 ⟨some "alice", none, Rank.owner⟩ c3sys.mem "").1⟩

/-- C1 witness: a moderator holding the admin password bans member bob in
Main at a concrete store; the gate holds and the ban record is written. -/
theorem C1_sanction_gate_witness :
    banRecorded (banUser_p1 c1wconn c1st "bob" "10m" ADMIN_PASSWORD 0).st
      "Main" "bob" ⟨0 + banDurationMs "10m", "mody"⟩ :=
  (C1_sanction_gate c1wconn c1st "mody" "Main" "bob" "10m" ADMIN_PASSWORD 0
      rfl rfl (by decide)).1.1 (by decide)

end LiveChat
